import Mathlib

/-!
# PayGuard-DQ check execution and scoring engine: a shallow embedding

This file embeds the core pipeline of the PayGuard-DQ repository
(`backend/app/checks/*.py`, `backend/app/agents/scoring_agent.py`,
`backend/app/agents/remediation_agent.py`,
`backend/app/agents/dimension_selector_agent.py`) and proves, or refutes,
behavioural claims about it.

Modelling conventions:

* Python floats are modelled as exact rationals (`ℚ`).  Since the library
  arithmetic on `ℚ` does not reduce in the kernel, the embedding computes
  with the wrapper operations `qadd`, `qsub`, `qmul`, `qdiv`, `qneg`,
  `qabs`, `qsum` built from `mkRat`; the bridge lemmas `qadd_eq` … prove
  each wrapper equal to the corresponding field operation, so order and
  algebra reasoning happens over ordinary `ℚ` arithmetic.
* Python `round(x, 2)` / `round(x, 4)` are modelled as `round2` / `round4`,
  rounding half up via the floor; CPython's banker's tie-break differs only
  at exact half-ulps of the last kept digit, which no value in this
  development reaches.
* A pandas `DataFrame` is a column-ordered table of `Cell`s together with
  its row count; `Cell.null` models `NaN`/`None`.  `astype(str)` maps a
  null cell to the string `"nan"` (as pandas does for `float('nan')`), so
  a stringified column contains no nulls and `.isna()` on it is
  all-`False`; the embedding records that conjunct as vacuous where the
  source applies it after `astype(str)`.
* Check metrics are an open string-keyed mapping (`MVal`), mirroring the
  dictionaries the checks build; nested dictionaries and lists are
  represented structurally.
-/

/-- Kernel-reducible addition on `ℚ` (Python `+` on floats). -/
def qadd (a b : ℚ) : ℚ := mkRat (a.num * b.den + b.num * a.den) (a.den * b.den)

/-- Kernel-reducible subtraction on `ℚ` (Python `-`). -/
def qsub (a b : ℚ) : ℚ := mkRat (a.num * b.den - b.num * a.den) (a.den * b.den)

/-- Kernel-reducible multiplication on `ℚ` (Python `*`). -/
def qmul (a b : ℚ) : ℚ := mkRat (a.num * b.num) (a.den * b.den)

/-- Kernel-reducible negation on `ℚ` (Python unary `-`). -/
def qneg (a : ℚ) : ℚ := mkRat (-a.num) a.den

/-- Kernel-reducible inverse on `ℚ`; `qinv 0 = 0` is never reached because
every division in the source is guarded by a positivity test on the
denominator (the one unguarded division, in `infer_key_columns`, is
modelled explicitly as an error). -/
def qinv (a : ℚ) : ℚ :=
  if a.num < 0 then mkRat (-(a.den : ℤ)) a.num.natAbs
  else mkRat (a.den : ℤ) a.num.natAbs

/-- Kernel-reducible division on `ℚ` (Python `/` on floats). -/
def qdiv (a b : ℚ) : ℚ := qmul a (qinv b)

/-- Kernel-reducible absolute value on `ℚ` (Python `abs`). -/
def qabs (a : ℚ) : ℚ := mkRat (a.num.natAbs : ℤ) a.den

/-- Sum of a list of rationals (Python `sum`, and `+=` accumulation in
source order). -/
def qsum (l : List ℚ) : ℚ := l.foldr qadd 0

/-- Python's `int // 1`-style floor of a rational; agrees with `⌊·⌋`. -/
def pyFloor (q : ℚ) : ℤ := q.num / (q.den : ℤ)

/-- Python `round(x, 2)` (see the file comment on the half tie-break). -/
def round2 (q : ℚ) : ℚ := mkRat (pyFloor (qadd (qmul q 100) (mkRat 1 2))) 100

/-- Python `round(x, 4)`. -/
def round4 (q : ℚ) : ℚ := mkRat (pyFloor (qadd (qmul q 10000) (mkRat 1 2))) 10000

/-- Lowercasing a Python string (`str.lower`), kernel-reducible. -/
def lowerStr (s : String) : String := ⟨s.data.map Char.toLower⟩

/-- Uppercasing a Python string (`str.upper` / pandas `.str.upper()`). -/
def upperStr (s : String) : String := ⟨s.data.map Char.toUpper⟩

/-- `needleStr` occurs as a contiguous substring of `hay` (Python
`needle in hay` on strings), kernel-reducible. -/
def hasSubstr (needleStr : List Char) (hay : List Char) : Bool :=
  match hay with
  | [] => needleStr.isEmpty
  | _ :: t => needleStr.isPrefixOf hay || hasSubstr needleStr t

/-- Python `sub in s` for strings. -/
def strContains (s sub : String) : Bool := hasSubstr sub.data s.data

/-- Python `s[:6]` (used for BIN extraction). -/
def strTake (s : String) (n : ℕ) : String := ⟨s.data.take n⟩

/-- First-occurrence deduplication: pandas `Series.unique()` order and the
key set of a Python `dict` built by repeated insertion. -/
def uniqueFirst {α : Type} [BEq α] (l : List α) : List α :=
  l.foldl (fun acc x => if acc.contains x then acc else acc ++ [x]) []

/-! ## Data model -/

/-- One cell of a tabular dataset.  `null` models `NaN`/`None`; numbers
and strings cover the scalar payloads the checks inspect. -/
inductive Cell where
  | null
  | str (s : String)
  | num (q : ℚ)
deriving DecidableEq

/-- pandas `astype(str)` on one cell: `NaN` prints as `"nan"`; a numeric
cell prints as its decimal repr (modelled via `Rat`'s repr, which never
collides with the alphabetic reference codes the checks test against). -/
def cellToStr : Cell → String
  | .null => "nan"
  | .str s => s
  | .num q => if q.den = 1 then toString q.num else toString q.num ++ "." ++ toString q.den

/-- pandas `pd.to_numeric(_, errors := coerce)` on one cell: numbers pass
through, everything else coerces to `NaN` (the ComputationError policy;
parsing of numeric text is not modelled, such cells coerce like text). -/
def cellToNum : Cell → Option ℚ
  | .num q => some q
  | _ => none

/-- pandas `pd.to_datetime(_, errors := coerce)` on one cell: timestamps
are modelled as numeric epoch values, everything else coerces to `NaT`. -/
def cellToTime : Cell → Option ℚ
  | .num q => some q
  | _ => none

def Cell.isNull : Cell → Bool
  | .null => true
  | _ => false

/-- A pandas `DataFrame`: the row count and the ordered named columns.
Each column list has `nrows` cells. -/
structure DataFrame where
  nrows : ℕ
  cols : List (String × List Cell)

/-- `df.columns`, in order. -/
def DataFrame.columns (df : DataFrame) : List String := df.cols.map Prod.fst

/-- `df[c]`: the cells of column `c` (first match wins, as for unique
pandas labels). -/
def DataFrame.colData (df : DataFrame) (c : String) : List Cell :=
  ((df.cols.find? (fun p => p.1 == c)).map Prod.snd).getD []

/-- `df[col].nunique()`: distinct non-null values. -/
def DataFrame.nunique (df : DataFrame) (c : String) : ℕ :=
  (uniqueFirst ((df.colData c).filter (fun x => !x.isNull))).length

/-- A value in a check's `metrics` dictionary. -/
inductive MVal where
  | num (q : ℚ)
  | str (s : String)
  | boolV (b : Bool)
  | noneV
  | strL (l : List String)
  | arr (l : List MVal)
  | dict (l : List (String × MVal))

/-- `CheckResult`: the typed outcome of one check invocation.  The
`dimension` key is absent from the dictionaries the check functions build
and is added by the Check Executor, hence the `Option`. -/
structure CheckResult where
  check_id : String
  passed : Bool
  severity : String
  metrics : List (String × MVal)
  dimension : Option String

/-- `metrics[k]` lookup (`k in metrics` is `(mlookup _ k).isSome`). -/
def mlookup (m : List (String × MVal)) (k : String) : Option MVal :=
  (m.find? (fun p => p.1 == k)).map Prod.snd

/-- Python `float(v)` on a metric value.  On non-numeric payloads the
source would raise; the catalog only stores numbers under the fields this
is applied to, and the model totalises those unreachable cases to `0`. -/
def MVal.asFloat : MVal → ℚ
  | .num q => q
  | _ => 0

/-- The numeric payload of a metrics field, when present and numeric. -/
def metricNum (r : CheckResult) (k : String) : Option ℚ :=
  match mlookup r.metrics k with
  | some (.num q) => some q
  | _ => none

/-! ## Check catalog: validity (`backend/app/checks/validity.py`) -/

/-- ISO 4217 currency codes (major ones), as in the source. -/
def VALID_CURRENCIES : List String :=
  ["USD", "EUR", "GBP", "JPY", "CNY", "AUD", "CAD", "CHF", "HKD", "SGD",
   "SEK", "KRW", "NOK", "NZD", "INR", "MXN", "ZAR", "BRL", "RUB", "TRY",
   "AED", "SAR", "THB", "MYR", "IDR", "PHP", "DKK", "PLN", "CZK", "HUF"]

/-- ISO 3166 country codes (major ones), as in the source. -/
def VALID_COUNTRIES : List String :=
  ["US", "GB", "CA", "AU", "DE", "FR", "IT", "ES", "NL", "BE", "CH", "AT",
   "SE", "NO", "DK", "FI", "IE", "PT", "GR", "PL", "CZ", "HU", "RO", "BG",
   "JP", "CN", "KR", "IN", "SG", "HK", "TH", "MY", "ID", "PH", "VN", "NZ",
   "MX", "BR", "AR", "CL", "CO", "PE", "ZA", "AE", "SA", "TR", "RU", "IL"]

/-- Per-column membership tally shared by the three code-validity checks:
stringified values, invalid count, invalid rate, sample of invalid values.
The `~values.isna()` conjunct of the source mask is vacuous because
`astype(str)` leaves no nulls. -/
structure ColTally where
  col : String
  invalid_count : ℕ
  invalid_rate : ℚ
  sample : List String

def colTally (df : DataFrame) (col : String) (bad : String → Bool) : ColTally :=
  let values := (df.colData col).map (fun c => upperStr (cellToStr c))
  let invalid := values.filter bad
  { col := col
    invalid_count := invalid.length
    invalid_rate := if df.nrows > 0 then mkRat invalid.length df.nrows else 0
    sample := (uniqueFirst invalid).take 10 }

def tallyMetrics (t : ColTally) : String × MVal :=
  (t.col, .dict [("invalid_count", .num t.invalid_count),
                 ("invalid_rate", .num t.invalid_rate),
                 ("sample_invalid_values", .strL t.sample)])

def failingColMetric (t : ColTally) : MVal :=
  .dict [("column", .str t.col), ("invalid_rate", .num t.invalid_rate)]

/-- `check_currency_validity` (validity.py lines 25-78). -/
def check_currency_validity (df : DataFrame) : CheckResult :=
  let currency_cols := df.columns.filter (fun c => strContains (lowerStr c) "currency")
  if currency_cols.isEmpty then
    { check_id := "validity_currency"
      passed := true
      severity := "low"
      metrics := [("message", .str "No currency columns found")]
      dimension := none }
  else
    let tallies := currency_cols.map
      (fun col => colTally df col (fun v => !VALID_CURRENCIES.contains v))
    let total_invalid := (tallies.map (fun t => t.invalid_count)).sum
    let failing_columns := tallies.filter (fun t => t.invalid_rate > 0)
    let overall_invalid_rate :=
      if df.nrows > 0 && !currency_cols.isEmpty then
        mkRat total_invalid (df.nrows * currency_cols.length)
      else 0
    { check_id := "validity_currency"
      passed := overall_invalid_rate == 0
      severity :=
        if overall_invalid_rate > mkRat 1 100 then "high"
        else if overall_invalid_rate > 0 then "medium" else "low"
      metrics :=
        [("currency_columns", .strL currency_cols),
         ("overall_invalid_rate", .num overall_invalid_rate),
         ("invalid_info", .dict (tallies.map tallyMetrics)),
         ("failing_columns", .arr (failing_columns.map failingColMetric))]
      dimension := none }

/-- `check_country_validity` (validity.py lines 81-133). -/
def check_country_validity (df : DataFrame) : CheckResult :=
  let country_cols := df.columns.filter (fun c => strContains (lowerStr c) "country")
  if country_cols.isEmpty then
    { check_id := "validity_country"
      passed := true
      severity := "low"
      metrics := [("message", .str "No country columns found")]
      dimension := none }
  else
    let tallies := country_cols.map
      (fun col => colTally df col (fun v => !VALID_COUNTRIES.contains v))
    let total_invalid := (tallies.map (fun t => t.invalid_count)).sum
    let failing_columns := tallies.filter (fun t => t.invalid_rate > 0)
    let overall_invalid_rate :=
      if df.nrows > 0 && !country_cols.isEmpty then
        mkRat total_invalid (df.nrows * country_cols.length)
      else 0
    { check_id := "validity_country"
      passed := overall_invalid_rate == 0
      severity := if overall_invalid_rate > mkRat 1 100 then "medium" else "low"
      metrics :=
        [("country_columns", .strL country_cols),
         ("overall_invalid_rate", .num overall_invalid_rate),
         ("invalid_info", .dict (tallies.map tallyMetrics)),
         ("failing_columns", .arr (failing_columns.map failingColMetric))]
      dimension := none }

/-- `re.match(r'^\d{4}$', s)`: exactly four digits. -/
def isFourDigits (s : String) : Bool := s.length == 4 && s.data.all Char.isDigit

/-- Per-column tally for `check_mcc_validity`: values are stringified but
not uppercased, and the invalid mask disjoins the format test with the
reference-membership test when a reference with an `mcc` column exists. -/
def mccTally (df : DataFrame) (useRef : Bool) (valid_mccs : List String)
    (col : String) : ColTally :=
  let values := (df.colData col).map cellToStr
  let invalid := values.filter (fun v =>
    !isFourDigits v || (useRef && !valid_mccs.contains v))
  { col := col
    invalid_count := invalid.length
    invalid_rate := if df.nrows > 0 then mkRat invalid.length df.nrows else 0
    sample := (uniqueFirst invalid).take 10 }

/-- `check_mcc_validity` (validity.py lines 136-200).  When the reference
is absent, or lacks an `mcc` column, the source silently falls back to the
format-only mask (lines 160-165) instead of the diagnostic pass. -/
def check_mcc_validity (df : DataFrame) (mcc_reference : Option DataFrame) :
    CheckResult :=
  let mcc_cols := df.columns.filter (fun c => strContains (lowerStr c) "mcc")
  if mcc_cols.isEmpty then
    { check_id := "validity_mcc"
      passed := true
      severity := "low"
      metrics := [("message", .str "No MCC columns found")]
      dimension := none }
  else
    let useRef :=
      match mcc_reference with
      | some ref => ref.columns.contains "mcc"
      | none => false
    let valid_mccs :=
      match mcc_reference with
      | some ref => uniqueFirst ((ref.colData "mcc").map cellToStr)
      | none => []
    let tallies := mcc_cols.map (mccTally df useRef valid_mccs)
    let total_invalid := (tallies.map (fun t => t.invalid_count)).sum
    let failing_columns := tallies.filter (fun t => t.invalid_rate > 0)
    let overall_invalid_rate :=
      if df.nrows > 0 && !mcc_cols.isEmpty then
        mkRat total_invalid (df.nrows * mcc_cols.length)
      else 0
    { check_id := "validity_mcc"
      passed := overall_invalid_rate == 0
      severity := if overall_invalid_rate > mkRat 1 100 then "medium" else "low"
      metrics :=
        [("mcc_columns", .strL mcc_cols),
         ("overall_invalid_rate", .num overall_invalid_rate),
         ("invalid_info", .dict (tallies.map tallyMetrics)),
         ("failing_columns", .arr (failing_columns.map failingColMetric)),
         ("reference_used", .boolV mcc_reference.isSome)]
      dimension := none }

/-- pandas `Series.quantile(p)` with linear interpolation over the sorted
non-null values (`NaN` when the series is empty). -/
def quantilePy (vals : List ℚ) (p : ℚ) : Option ℚ :=
  let sorted := vals.mergeSort (fun a b => decide (a ≤ b))
  match sorted with
  | [] => none
  | v0 :: _ =>
    let n := sorted.length
    let h := qmul p ((n - 1 : ℕ) : ℚ)
    let lo := (pyFloor h).toNat
    let frac := qsub h ((lo : ℕ) : ℚ)
    let vlo := sorted.getD lo v0
    let vhi := sorted.getD (lo + 1) vlo
    some (qadd vlo (qmul frac (qsub vhi vlo)))

/-- `check_amount_validity` (validity.py lines 203-269): negative amounts
plus Tukey outliers outside `[Q1 - 3·IQR, Q3 + 3·IQR]`.  Comparisons
against `NaN` are elementwise `False` in pandas, so coerced/null cells are
never counted; when every value is null both quantiles are `NaN` and the
outlier mask is all-`False`. -/
def check_amount_validity (df : DataFrame) : CheckResult :=
  let amount_cols := df.columns.filter (fun c => strContains (lowerStr c) "amount")
  if amount_cols.isEmpty then
    { check_id := "validity_amount"
      passed := true
      severity := "low"
      metrics := [("message", .str "No amount columns found")]
      dimension := none }
  else
    let perCol := amount_cols.map (fun col =>
      let values := (df.colData col).map cellToNum
      let valid := values.filterMap id
      let negative_count := values.countP (fun v =>
        match v with | some q => decide (q < 0) | none => false)
      let q1 := quantilePy valid (mkRat 1 4)
      let q3 := quantilePy valid (mkRat 3 4)
      let outlier_count :=
        match q1, q3 with
        | some a, some b =>
          let iqr := qsub b a
          let hi := qadd b (qmul 3 iqr)
          let lo := qsub a (qmul 3 iqr)
          values.countP (fun v =>
            match v with
            | some q => decide (q > hi) || decide (q < lo)
            | none => false)
        | _, _ => 0
      let invalid_count := negative_count + outlier_count
      let invalid_rate : ℚ := if df.nrows > 0 then mkRat invalid_count df.nrows else 0
      (col, invalid_count, invalid_rate, negative_count, outlier_count, valid))
    let total_invalid := (perCol.map (fun t => t.2.1)).sum
    let failing_columns := perCol.filter (fun t => t.2.2.1 > 0)
    let overall_invalid_rate :=
      if df.nrows > 0 && !amount_cols.isEmpty then
        mkRat total_invalid (df.nrows * amount_cols.length)
      else 0
    { check_id := "validity_amount"
      passed := overall_invalid_rate < mkRat 1 100
      severity :=
        if overall_invalid_rate > mkRat 5 100 then "critical"
        else if overall_invalid_rate > mkRat 1 100 then "high" else "low"
      metrics :=
        [("amount_columns", .strL amount_cols),
         ("overall_invalid_rate", .num overall_invalid_rate),
         ("invalid_info", .dict (perCol.map (fun t =>
           (t.1, MVal.dict
             [("invalid_count", .num t.2.1),
              ("invalid_rate", .num t.2.2.1),
              ("negative_count", .num t.2.2.2.1),
              ("outlier_count", .num t.2.2.2.2.1),
              ("min", match (quantilePy t.2.2.2.2.2 0) with
                      | some _ => .num (((t.2.2.2.2.2.mergeSort
                          (fun a b => decide (a ≤ b))).headI : ℚ))
                      | none => .noneV),
              ("max", match (quantilePy t.2.2.2.2.2 1) with
                      | some q => .num q
                      | none => .noneV),
              ("median", match quantilePy t.2.2.2.2.2 (mkRat 1 2) with
                         | some q => .num q
                         | none => .noneV)])))),
         ("failing_columns", .arr (failing_columns.map (fun t =>
           .dict [("column", .str t.1), ("invalid_rate", .num t.2.2.1)])))]
      dimension := none }

/-- `run_validity_checks` (validity.py lines 272-280). -/
def run_validity_checks (df : DataFrame) (mcc_reference : Option DataFrame) :
    List CheckResult :=
  [check_currency_validity df,
   check_country_validity df,
   check_mcc_validity df mcc_reference,
   check_amount_validity df]

/-! ## Check catalog: completeness (`backend/app/checks/completeness.py`) -/

/-- `check_null_rates` (completeness.py lines 8-43).  The overall rate
divides by `len(df) * len(df.columns)` guarded only by `len(df) > 0`; a
frame with rows but no columns is not constructible from ingested tabular
data and is modelled by `mkRat _ 0 = 0`. -/
def check_null_rates (df : DataFrame) : CheckResult :=
  let perCol := df.columns.map (fun col =>
    let null_count := (df.colData col).countP Cell.isNull
    let null_rate : ℚ := if df.nrows > 0 then mkRat null_count df.nrows else 0
    (col, null_count, null_rate))
  let total_missing := (perCol.map (fun t => t.2.1)).sum
  let failing_columns := perCol.filter (fun t => t.2.2 > mkRat 5 100)
  let overall_null_rate : ℚ :=
    if df.nrows > 0 then mkRat total_missing (df.nrows * df.columns.length) else 0
  { check_id := "completeness_null_rates"
    passed := overall_null_rate < mkRat 5 100
    severity :=
      if overall_null_rate > mkRat 10 100 then "high"
      else if overall_null_rate > mkRat 5 100 then "medium" else "low"
    metrics :=
      [("overall_null_rate", .num overall_null_rate),
       ("null_rates_by_column", .dict (perCol.map (fun t =>
         (t.1, MVal.dict [("null_count", .num t.2.1),
                          ("null_rate", .num t.2.2)])))),
       ("failing_columns", .arr (failing_columns.map (fun t =>
         .dict [("column", .str t.1), ("null_rate", .num t.2.2)]))),
       ("total_missing_values", .num total_missing)]
    dimension := none }

/-- `check_required_fields` (completeness.py lines 46-100) with the
auto-inferred required field list (the orchestrator never supplies one). -/
def check_required_fields (df : DataFrame) : CheckResult :=
  let required_fields := df.columns.filter (fun col =>
    ["txn_id", "transaction_id", "event_id", "id", "amount", "currency",
     "status"].any (fun k => strContains (lowerStr col) k))
  let missing_fields := required_fields.filter (fun f => !df.columns.contains f)
  let present := required_fields.filter (fun f => df.columns.contains f)
  let perField := present.map (fun f =>
    let null_count := (df.colData f).countP Cell.isNull
    let null_rate : ℚ := if df.nrows > 0 then mkRat null_count df.nrows else 0
    (f, null_count, null_rate))
  let failing_fields := perField.filter (fun t => t.2.2 > 0)
  { check_id := "completeness_required_fields"
    passed := missing_fields.isEmpty && failing_fields.isEmpty
    severity :=
      if !missing_fields.isEmpty || !failing_fields.isEmpty then "critical"
      else "low"
    metrics :=
      [("required_fields", .strL required_fields),
       ("missing_fields", .strL missing_fields),
       ("field_completeness", .dict (perField.map (fun t =>
         (t.1, MVal.dict [("null_count", .num t.2.1),
                          ("null_rate", .num t.2.2),
                          ("present", .boolV true)])))),
       ("failing_fields", .arr (failing_fields.map (fun t =>
         .dict [("field", .str t.1), ("null_rate", .num t.2.2)])))]
    dimension := none }

/-- `run_completeness_checks` (completeness.py lines 103-108). -/
def run_completeness_checks (df : DataFrame) : List CheckResult :=
  [check_null_rates df, check_required_fields df]

/-! ## Check catalog: uniqueness (`backend/app/checks/uniqueness.py`) -/

/-- Column-name keywords for key inference (uniqueness.py lines 18-20). -/
def keyNameKeywords : List String := ["id", "key", "uuid", "guid", "reference", "ref"]

/-- `infer_key_columns` (uniqueness.py lines 8-38).  The fallback branch
(lines 31-36) evaluates `unique_count / total_count` with NO zero guard:
on a frame with zero rows and at least one column whose id-like loop found
nothing, Python raises `ZeroDivisionError`.  The embedding surfaces that
as `Except.error`. -/
def infer_key_columns (df : DataFrame) : Except String (List String) :=
  let key_columns := df.columns.filter (fun col =>
    keyNameKeywords.any (fun k => strContains (lowerStr col) k) &&
    (if df.nrows > 0 then mkRat (df.nunique col) df.nrows else 0) > mkRat 95 100)
  if key_columns.isEmpty && !df.columns.isEmpty then
    let first_col := df.columns.headI
    if df.nrows = 0 then
      .error "ZeroDivisionError"
    else if mkRat (df.nunique first_col) df.nrows > mkRat 95 100 then
      .ok (key_columns ++ [first_col])
    else
      .ok key_columns
  else
    .ok key_columns

/-- `df[col].duplicated().sum()`: occurrences beyond the first of each
value; pandas treats `NaN` as duplicating earlier `NaN`s here. -/
def dupCount (l : List Cell) : ℕ := l.length - (uniqueFirst l).length

/-- `check_duplicates` (uniqueness.py lines 41-95). -/
def check_duplicates (df : DataFrame) (key_columns : List String) : CheckResult :=
  if key_columns.isEmpty then
    { check_id := "uniqueness_duplicates"
      passed := true
      severity := "low"
      metrics := [("message", .str "No key columns identified"),
                  ("key_columns", .strL [])]
      dimension := none }
  else
    let present := key_columns.filter (fun c => df.columns.contains c)
    let perCol := present.map (fun col =>
      let dup_count := dupCount (df.colData col)
      let dup_rate : ℚ := if df.nrows > 0 then mkRat dup_count df.nrows else 0
      (col, dup_count, dup_rate))
    let total_duplicates := (perCol.map (fun t => t.2.1)).sum
    let failing_columns := perCol.filter (fun t => t.2.2 > 0)
    let overall_dup_rate : ℚ :=
      if df.nrows > 0 && !key_columns.isEmpty then
        mkRat total_duplicates (df.nrows * key_columns.length)
      else 0
    { check_id := "uniqueness_duplicates"
      passed := overall_dup_rate == 0
      severity :=
        if overall_dup_rate > mkRat 1 100 then "critical"
        else if overall_dup_rate > 0 then "high" else "low"
      metrics :=
        [("key_columns", .strL key_columns),
         ("overall_duplicate_rate", .num overall_dup_rate),
         ("duplicate_info", .dict (perCol.map (fun t =>
           (t.1, MVal.dict [("duplicate_count", .num t.2.1),
                            ("duplicate_rate", .num t.2.2),
                            ("unique_count", .num (df.nunique t.1)),
                            ("total_count", .num df.nrows)])))),
         ("failing_columns", .arr (failing_columns.map (fun t =>
           .dict [("column", .str t.1),
                  ("duplicate_rate", .num t.2.2),
                  ("duplicate_count", .num t.2.1)])))]
      dimension := none }

/-- `run_uniqueness_checks` (uniqueness.py lines 98-103); propagates the
`ZeroDivisionError` raised by `infer_key_columns`. -/
def run_uniqueness_checks (df : DataFrame) : Except String (List CheckResult) :=
  (infer_key_columns df).map (fun key_columns => [check_duplicates df key_columns])

/-! ## Check catalog: consistency (`backend/app/checks/consistency.py`) -/

/-- `check_status_settlement_consistency` (consistency.py lines 8-46). -/
def check_status_settlement_consistency (df : DataFrame) : CheckResult :=
  let status_cols := df.columns.filter (fun c => strContains (lowerStr c) "status")
  let settlement_cols := df.columns.filter (fun c =>
    strContains (lowerStr c) "settlement" && strContains (lowerStr c) "date")
  if status_cols.isEmpty || settlement_cols.isEmpty then
    { check_id := "consistency_status_settlement"
      passed := true
      severity := "low"
      metrics := [("message", .str "Required columns not found")]
      dimension := none }
  else
    let status_col := status_cols.headI
    let settlement_col := settlement_cols.headI
    let rows := (df.colData status_col).zip (df.colData settlement_col)
    let settledRow := fun (c : Cell) =>
      ["SETTLED", "COMPLETED", "SUCCESS"].contains (upperStr (cellToStr c))
    let settled_count := rows.countP (fun r => settledRow r.1)
    let inconsistent_count := rows.countP (fun r => settledRow r.1 && r.2.isNull)
    let inconsistent_rate : ℚ :=
      if df.nrows > 0 then mkRat inconsistent_count df.nrows else 0
    { check_id := "consistency_status_settlement"
      passed := inconsistent_count == 0
      severity :=
        if inconsistent_rate > mkRat 1 100 then "high"
        else if inconsistent_rate > 0 then "medium" else "low"
      metrics :=
        [("status_column", .str status_col),
         ("settlement_column", .str settlement_col),
         ("inconsistent_count", .num inconsistent_count),
         ("inconsistent_rate", .num inconsistent_rate),
         ("settled_count", .num settled_count)]
      dimension := none }

/-- Python `int(x)` under `astype(int)`: truncation toward zero. -/
def cellToInt (c : Cell) : ℤ :=
  match c with
  | .num q => if 0 ≤ q.num then pyFloor q else -(pyFloor (qneg q))
  | _ => 0

/-- Build a Python `dict` from association pairs: first-occurrence key
order, last value wins. -/
def pyDict {α : Type} (l : List (String × α)) : List (String × α) :=
  l.foldl (fun acc p =>
    if acc.any (fun q => q.1 == p.1) then
      acc.map (fun q => if q.1 == p.1 then (q.1, p.2) else q)
    else acc ++ [p]) []

/-- `check_currency_decimal_consistency` (consistency.py lines 49-124).
For a zero-decimal currency, `amounts % 1 != 0` is elementwise `True` for
`NaN` entries in pandas (`NaN != 0` is `True`), so coerced nulls count as
inconsistent; non-zero-decimal rules validate nothing (source line 99). -/
def check_currency_decimal_consistency (df : DataFrame)
    (currency_rules : Option DataFrame) : CheckResult :=
  let currency_cols := df.columns.filter (fun c => strContains (lowerStr c) "currency")
  let amount_cols := df.columns.filter (fun c => strContains (lowerStr c) "amount")
  if currency_cols.isEmpty || amount_cols.isEmpty || currency_rules.isNone then
    { check_id := "consistency_currency_decimals"
      passed := true
      severity := "low"
      metrics := [("message", .str "Required columns or reference not found")]
      dimension := none }
  else
    let rules := currency_rules.getD ⟨0, []⟩
    if !(rules.columns.contains "currency" && rules.columns.contains "decimal_places") then
      { check_id := "consistency_currency_decimals"
        passed := true
        severity := "low"
        metrics := [("message", .str "Currency rules format invalid")]
        dimension := none }
    else
      let currency_col := currency_cols.headI
      let amount_col := amount_cols.headI
      let currency_decimals := pyDict
        (((rules.colData "currency").map (fun c => upperStr (cellToStr c))).zip
         ((rules.colData "decimal_places").map cellToInt))
      let rows := (df.colData currency_col).zip (df.colData amount_col)
      let perCurrency : List (String × ℤ × ℕ × ℕ) :=
        currency_decimals.filterMap (fun rule =>
        let matching := rows.filter (fun r => upperStr (cellToStr r.1) == rule.1)
        if matching.length = 0 then none
        else
          let inconsistent_count : ℕ :=
            if rule.2 = (0 : ℤ) then
              matching.countP (fun r =>
                match cellToNum r.2 with
                | some q => decide (¬ q.den = 1)
                | none => true)
            else 0
          some (rule.1, rule.2, inconsistent_count, matching.length))
      let inconsistencies := perCurrency.filter (fun t => t.2.2.1 > 0)
      let total_inconsistent := (inconsistencies.map (fun t => t.2.2.1)).sum
      let inconsistent_rate : ℚ :=
        if df.nrows > 0 then mkRat total_inconsistent df.nrows else 0
      { check_id := "consistency_currency_decimals"
        passed := total_inconsistent == 0
        severity := if inconsistent_rate > mkRat 1 100 then "medium" else "low"
        metrics :=
          [("currency_column", .str currency_col),
           ("amount_column", .str amount_col),
           ("inconsistencies", .arr (inconsistencies.map (fun t =>
             .dict [("currency", .str t.1),
                    ("expected_decimals", .num (t.2.1 : ℚ)),
                    ("inconsistent_count", .num t.2.2.1),
                    ("total_count", .num t.2.2.2)]))),
           ("total_inconsistent", .num total_inconsistent),
           ("inconsistent_rate", .num inconsistent_rate)]
        dimension := none }

/-- `check_time_ordering_consistency` (consistency.py lines 127-169). -/
def check_time_ordering_consistency (df : DataFrame) : CheckResult :=
  let event_cols := df.columns.filter (fun c =>
    strContains (lowerStr c) "event" && strContains (lowerStr c) "time")
  let settlement_cols := df.columns.filter (fun c =>
    strContains (lowerStr c) "settlement" &&
    (strContains (lowerStr c) "time" || strContains (lowerStr c) "date"))
  if event_cols.isEmpty || settlement_cols.isEmpty then
    { check_id := "consistency_time_ordering"
      passed := true
      severity := "low"
      metrics := [("message", .str "Required time columns not found")]
      dimension := none }
  else
    let event_col := event_cols.headI
    let settlement_col := settlement_cols.headI
    let rows := ((df.colData event_col).map cellToTime).zip
      ((df.colData settlement_col).map cellToTime)
    let compared_count := rows.countP (fun r => r.1.isSome && r.2.isSome)
    let misordered_count := rows.countP (fun r =>
      match r with
      | (some e, some s) => decide (e > s)
      | _ => false)
    let misordered_rate : ℚ :=
      if compared_count > 0 then mkRat misordered_count compared_count else 0
    { check_id := "consistency_time_ordering"
      passed := misordered_count == 0
      severity :=
        if misordered_rate > mkRat 1 100 then "high"
        else if misordered_rate > 0 then "medium" else "low"
      metrics :=
        [("event_column", .str event_col),
         ("settlement_column", .str settlement_col),
         ("misordered_count", .num misordered_count),
         ("misordered_rate", .num misordered_rate),
         ("compared_count", .num compared_count)]
      dimension := none }

/-- `run_consistency_checks` (consistency.py lines 172-179). -/
def run_consistency_checks (df : DataFrame) (currency_rules : Option DataFrame) :
    List CheckResult :=
  [check_status_settlement_consistency df,
   check_currency_decimal_consistency df currency_rules,
   check_time_ordering_consistency df]

/-! ## Check catalog: timeliness (`backend/app/checks/timeliness.py`)

`check_event_lag` compares event times against `pd.Timestamp.now()`; the
embedding passes the reference clock explicitly, with timestamps as epoch
seconds and lags in hours, matching `total_seconds() / 3600`. -/

/-- `check_event_lag` (timeliness.py lines 9-59). -/
def check_event_lag (df : DataFrame) (now : ℚ) (sla_hours : ℚ) : CheckResult :=
  let time_cols := df.columns.filter (fun c =>
    ["event_time", "created_at", "timestamp"].any
      (fun k => strContains (lowerStr c) k))
  if time_cols.isEmpty then
    { check_id := "timeliness_event_lag"
      passed := true
      severity := "low"
      metrics := [("message", .str "No timestamp columns found")]
      dimension := none }
  else
    let time_col := time_cols.headI
    let lags := ((df.colData time_col).map cellToTime).map
      (fun t => t.map (fun e => qdiv (qsub now e) 3600))
    let violation_count := lags.countP (fun l =>
      match l with | some q => decide (q > sla_hours) | none => false)
    let violation_rate : ℚ :=
      if df.nrows > 0 then mkRat violation_count df.nrows else 0
    let valid_lags := lags.filterMap id
    { check_id := "timeliness_event_lag"
      passed := violation_rate < mkRat 5 100
      severity :=
        if violation_rate > mkRat 10 100 then "high"
        else if violation_rate > mkRat 5 100 then "medium" else "low"
      metrics :=
        [("time_column", .str time_col),
         ("sla_hours", .num sla_hours),
         ("violation_count", .num violation_count),
         ("violation_rate", .num violation_rate),
         ("avg_lag_hours",
          if valid_lags.length > 0 then
            .num (qdiv (qsum valid_lags) valid_lags.length) else .noneV),
         ("max_lag_hours",
          match quantilePy valid_lags 1 with
          | some q => .num q | none => .noneV),
         ("p95_lag_hours",
          match quantilePy valid_lags (mkRat 95 100) with
          | some q => .num q | none => .noneV)]
      dimension := none }

/-- `check_processing_delay` (timeliness.py lines 62-110). -/
def check_processing_delay (df : DataFrame) : CheckResult :=
  let event_cols := df.columns.filter (fun c =>
    strContains (lowerStr c) "event" && strContains (lowerStr c) "time")
  let settlement_cols := df.columns.filter (fun c =>
    strContains (lowerStr c) "settlement" &&
    (strContains (lowerStr c) "time" || strContains (lowerStr c) "date"))
  if event_cols.isEmpty || settlement_cols.isEmpty then
    { check_id := "timeliness_processing_delay"
      passed := true
      severity := "low"
      metrics := [("message", .str "Required time columns not found")]
      dimension := none }
  else
    let event_col := event_cols.headI
    let settlement_col := settlement_cols.headI
    let rows := ((df.colData event_col).map cellToTime).zip
      ((df.colData settlement_col).map cellToTime)
    let both_present_count := rows.countP (fun r => r.1.isSome && r.2.isSome)
    let delays := rows.map (fun r =>
      match r with
      | (some e, some s) => some (qdiv (qsub s e) 3600)
      | _ => none)
    let excessive_count := delays.countP (fun d =>
      match d with | some q => decide (q > 48) | none => false)
    let excessive_rate : ℚ :=
      if both_present_count > 0 then mkRat excessive_count both_present_count else 0
    let valid_delays := delays.filterMap id
    { check_id := "timeliness_processing_delay"
      passed := excessive_rate < mkRat 5 100
      severity := if excessive_rate > mkRat 10 100 then "medium" else "low"
      metrics :=
        [("event_column", .str event_col),
         ("settlement_column", .str settlement_col),
         ("excessive_delay_count", .num excessive_count),
         ("excessive_delay_rate", .num excessive_rate),
         ("avg_delay_hours",
          if valid_delays.length > 0 then
            .num (qdiv (qsum valid_delays) valid_delays.length) else .noneV),
         ("max_delay_hours",
          match quantilePy valid_delays 1 with
          | some q => .num q | none => .noneV),
         ("p95_delay_hours",
          match quantilePy valid_delays (mkRat 95 100) with
          | some q => .num q | none => .noneV)]
      dimension := none }

/-- `run_timeliness_checks` (timeliness.py lines 113-118); the 24-hour SLA
default of `check_event_lag` is passed explicitly. -/
def run_timeliness_checks (df : DataFrame) (now : ℚ) : List CheckResult :=
  [check_event_lag df now 24, check_processing_delay df]

/-! ## Check catalog: integrity (`backend/app/checks/integrity.py`) -/

/-- One referential-integrity pass (integrity.py lines 16-41 and 44-69):
foreign-key values, stringified, must appear among the stringified values
of the reference's id column (first column whose name contains `id`,
falling back to the first column).  As elsewhere, `~df_ids.isna()` after
`astype(str)` excludes nothing. -/
def integrityResult (df : DataFrame) (check_id ref_table : String)
    (fk_col : String) (ref : DataFrame) : CheckResult :=
  let ref_id_cols := ref.columns.filter (fun c => strContains (lowerStr c) "id")
  let ref_id_col := if ref_id_cols.isEmpty then ref.columns.headI else ref_id_cols.headI
  let valid_ids := uniqueFirst ((ref.colData ref_id_col).map cellToStr)
  let df_ids := (df.colData fk_col).map cellToStr
  let missing_count := df_ids.countP (fun v => !valid_ids.contains v)
  let missing_rate : ℚ := if df.nrows > 0 then mkRat missing_count df.nrows else 0
  { check_id := check_id
    passed := missing_count == 0
    severity :=
      if missing_rate > mkRat 1 100 then "high"
      else if missing_rate > 0 then "medium" else "low"
    metrics :=
      [("column", .str fk_col),
       ("reference_table", .str ref_table),
       ("missing_count", .num missing_count),
       ("missing_rate", .num missing_rate),
       ("total_unique_values", .num (uniqueFirst df_ids).length)]
    dimension := none }

/-- `check_referential_integrity` (integrity.py lines 8-80), driven by the
reference-data mapping; when no applicable reference/column pair exists
the single diagnostic pass is returned. -/
def check_referential_integrity (df : DataFrame)
    (merchants customers : Option DataFrame) : List CheckResult :=
  let merchant_cols := df.columns.filter (fun c =>
    strContains (lowerStr c) "merchant" && strContains (lowerStr c) "id")
  let customer_cols := df.columns.filter (fun c =>
    strContains (lowerStr c) "customer" && strContains (lowerStr c) "id")
  let results :=
    (match merchants with
     | some ref =>
       if merchant_cols.isEmpty then []
       else [integrityResult df "integrity_merchant_reference" "merchants"
              merchant_cols.headI ref]
     | none => []) ++
    (match customers with
     | some ref =>
       if customer_cols.isEmpty then []
       else [integrityResult df "integrity_customer_reference" "customers"
              customer_cols.headI ref]
     | none => [])
  if results.isEmpty then
    [{ check_id := "integrity_referential"
       passed := true
       severity := "low"
       metrics := [("message", .str "No reference data provided for integrity checks")]
       dimension := none }]
  else results

/-- `run_integrity_checks` (integrity.py lines 83-89). -/
def run_integrity_checks (df : DataFrame)
    (merchants customers : Option DataFrame) : List CheckResult :=
  check_referential_integrity df merchants customers

/-! ## Check catalog: reconciliation (`backend/app/checks/reconciliation.py`) -/

/-- `check_bin_reconciliation` (reconciliation.py lines 9-72). -/
def check_bin_reconciliation (df : DataFrame) (bin_reference : Option DataFrame) :
    CheckResult :=
  match bin_reference with
  | none =>
    { check_id := "reconciliation_bin"
      passed := true
      severity := "low"
      metrics := [("message", .str "No BIN reference data provided")]
      dimension := none }
  | some ref =>
    let card_cols := df.columns.filter (fun c =>
      ["card", "pan", "bin"].any (fun k => strContains (lowerStr c) k))
    if card_cols.isEmpty then
      { check_id := "reconciliation_bin"
        passed := true
        severity := "low"
        metrics := [("message", .str "No card/BIN columns found")]
        dimension := none }
    else if !ref.columns.contains "bin" then
      { check_id := "reconciliation_bin"
        passed := true
        severity := "low"
        metrics := [("message", .str "BIN reference format invalid")]
        dimension := none }
    else
      let card_col := card_cols.headI
      let bins := (df.colData card_col).map (fun c => strTake (cellToStr c) 6)
      let valid_bins := uniqueFirst ((ref.colData "bin").map cellToStr)
      let matched_count := bins.countP (fun b => valid_bins.contains b)
      let unmatched_count := bins.countP (fun b => !valid_bins.contains b)
      let match_rate : ℚ := if df.nrows > 0 then mkRat matched_count df.nrows else 0
      let unmatched_sample :=
        (uniqueFirst (bins.filter (fun b => !valid_bins.contains b))).take 10
      { check_id := "reconciliation_bin"
        passed := match_rate > mkRat 95 100
        severity :=
          if match_rate < mkRat 90 100 then "high"
          else if match_rate < mkRat 95 100 then "medium" else "low"
        metrics :=
          [("card_column", .str card_col),
           ("match_rate", .num match_rate),
           ("matched_count", .num matched_count),
           ("unmatched_count", .num unmatched_count),
           ("sample_unmatched_bins", .strL unmatched_sample),
           ("reference_bin_count", .num valid_bins.length)]
        dimension := none }

/-- pandas `merge(…, how := inner)` key equality: `NaN` keys never match. -/
def cellMergeEq (a b : Cell) : Bool :=
  match a, b with
  | .null, _ => false
  | _, .null => false
  | a, b => a == b

/-- `check_settlement_reconciliation` (reconciliation.py lines 75-174). -/
def check_settlement_reconciliation (df : DataFrame)
    (settlement_ledger : Option DataFrame) : CheckResult :=
  match settlement_ledger with
  | none =>
    { check_id := "reconciliation_settlement"
      passed := true
      severity := "low"
      metrics := [("message", .str "No settlement ledger provided")]
      dimension := none }
  | some ledger =>
    let txn_id_cols := df.columns.filter (fun c =>
      ["txn_id", "transaction_id", "id"].any (fun k => strContains (lowerStr c) k))
    if txn_id_cols.isEmpty then
      { check_id := "reconciliation_settlement"
        passed := true
        severity := "low"
        metrics := [("message", .str "No transaction ID column found")]
        dimension := none }
    else
      let ledger_id_cols := ledger.columns.filter (fun c =>
        ["txn_id", "transaction_id", "id"].any (fun k => strContains (lowerStr c) k))
      if ledger_id_cols.isEmpty then
        { check_id := "reconciliation_settlement"
          passed := true
          severity := "low"
          metrics := [("message", .str "Settlement ledger format invalid")]
          dimension := none }
      else
        let txn_id_col := txn_id_cols.headI
        let ledger_id_col := ledger_id_cols.headI
        let ledger_ids := uniqueFirst ((ledger.colData ledger_id_col).map cellToStr)
        let df_ids := (df.colData txn_id_col).map cellToStr
        let matched_count := df_ids.countP (fun v => ledger_ids.contains v)
        let match_rate : ℚ := if df.nrows > 0 then mkRat matched_count df.nrows else 0
        let unmatched_count := df_ids.countP (fun v => !ledger_ids.contains v)
        let amount_mismatches :=
          if df.columns.contains "amount" && ledger.columns.contains "amount" then
            let left := (df.colData txn_id_col).zip (df.colData "amount")
            let right := (ledger.colData ledger_id_col).zip (ledger.colData "amount")
            let merged := left.flatMap (fun l =>
              (right.filter (fun r => cellMergeEq l.1 r.1)).map (fun r => (l.2, r.2)))
            merged.countP (fun p =>
              match cellToNum p.1, cellToNum p.2 with
              | some a, some b => decide (qabs (qsub a b) > mkRat 1 100)
              | _, _ => false)
          else 0
        let currency_mismatches :=
          if df.columns.contains "currency" && ledger.columns.contains "currency" then
            let left := (df.colData txn_id_col).zip (df.colData "currency")
            let right := (ledger.colData ledger_id_col).zip (ledger.colData "currency")
            let merged := left.flatMap (fun l =>
              (right.filter (fun r => cellMergeEq l.1 r.1)).map (fun r => (l.2, r.2)))
            merged.countP (fun p =>
              upperStr (cellToStr p.1) != upperStr (cellToStr p.2))
          else 0
        let total_mismatches := unmatched_count + amount_mismatches + currency_mismatches
        let overall_reconciliation_rate : ℚ :=
          if df.nrows > 0 then qsub 1 (mkRat total_mismatches df.nrows) else 0
        { check_id := "reconciliation_settlement"
          passed := overall_reconciliation_rate > mkRat 98 100
          severity :=
            if overall_reconciliation_rate < mkRat 95 100 then "critical"
            else if overall_reconciliation_rate < mkRat 98 100 then "high" else "low"
          metrics :=
            [("txn_id_column", .str txn_id_col),
             ("txn_id_match_rate", .num match_rate),
             ("unmatched_txn_count", .num unmatched_count),
             ("amount_mismatches", .num amount_mismatches),
             ("currency_mismatches", .num currency_mismatches),
             ("overall_reconciliation_rate", .num overall_reconciliation_rate),
             ("ledger_record_count", .num ledger.nrows)]
          dimension := none }

/-- `run_reconciliation_checks` (reconciliation.py lines 177-184). -/
def run_reconciliation_checks (df : DataFrame)
    (bin_reference settlement_ledger : Option DataFrame) : List CheckResult :=
  [check_bin_reconciliation df bin_reference,
   check_settlement_reconciliation df settlement_ledger]

/-! ## Scoring Engine (`backend/app/agents/scoring_agent.py`) -/

/-- The profile fields consumed by the Scoring Engine and the Dimension
Selector: column names (`profile["columns"].keys()`), the column count,
and the inferred-type buckets.  The per-column statistics of the full
`DatasetProfile` are not consumed by these components. -/
structure Profile where
  row_count : ℕ
  column_count : ℕ
  columns : List String
  id_columns : List String
  timestamp_columns : List String
  enum_columns : List String
  numeric_columns : List String
  text_columns : List String

namespace ScoringAgent

/-- `FIELD_CRITICALITY` (scoring_agent.py lines 12-30), in source order. -/
def FIELD_CRITICALITY : List (String × ℕ) :=
  [("amount", 3), ("currency", 3), ("txn_id", 3), ("transaction_id", 3),
   ("status", 3),
   ("merchant_id", 2), ("mcc", 2), ("country", 2), ("merchant", 2),
   ("customer_id", 3), ("kyc", 3), ("compliance", 3)]

/-- The criticality tally of `_get_dimension_weight` (lines 230-237):
every table entry whose keyword is a substring of the lowercased column
name contributes, for every column. -/
def critical_count (profile : Profile) : ℕ :=
  (profile.columns.map (fun col =>
    ((FIELD_CRITICALITY.filter (fun p => strContains (lowerStr col) p.1)).map
      Prod.snd).sum)).sum

/-- Base dimension weights (lines 217-225). -/
def base_weights : List (String × ℚ) :=
  [("completeness", 2), ("uniqueness", 3), ("validity", mkRat 5 2),
   ("consistency", mkRat 5 2), ("timeliness", 2), ("integrity", mkRat 5 2),
   ("reconciliation", 3)]

/-- `_get_dimension_weight` (lines 212-243): base weight (default 2.0),
multiplied by 1.2 when the criticality tally exceeds 10, rounded to two
decimals. -/
def get_dimension_weight (dimension : String) (profile : Profile) : ℚ :=
  let weight := ((base_weights.find? (fun p => p.1 == dimension)).map Prod.snd).getD 2
  let weight := if critical_count profile > 10 then qmul weight (mkRat 6 5) else weight
  round2 weight

/-- Metric-field search order for error-rate extraction (lines 165-166). -/
def rateFields : List String :=
  ["overall_null_rate", "overall_duplicate_rate", "overall_invalid_rate",
   "inconsistent_rate", "violation_rate", "excessive_delay_rate"]

/-- Match-style metric fields, inverted as `1 - value` (line 171). -/
def matchFields : List String := ["match_rate", "overall_reconciliation_rate"]

/-- `_extract_error_rate` (lines 160-179). -/
def extract_error_rate (check : CheckResult) : ℚ :=
  match rateFields.findSome? (fun f => mlookup check.metrics f) with
  | some v => v.asFloat
  | none =>
    match matchFields.findSome? (fun f => mlookup check.metrics f) with
    | some v => qsub 1 v.asFloat
    | none => if check.passed then 0 else mkRat 5 100

/-- `severity_weights` (lines 99-104) with the `.get(severity, 2.0)`
default. -/
def severityWeight (severity : String) : ℚ :=
  (([("critical", (4 : ℚ)), ("high", 3), ("medium", 2), ("low", 1)].find?
    (fun p => p.1 == severity)).map Prod.snd).getD 2

/-- `_extract_key_metrics` (lines 181-199). -/
def extract_key_metrics (check : CheckResult) : List (String × MVal) :=
  (["overall_null_rate", "overall_duplicate_rate", "overall_invalid_rate",
    "inconsistent_rate", "violation_rate", "match_rate",
    "overall_reconciliation_rate"] ++
   ["missing_count", "duplicate_count", "invalid_count", "inconsistent_count",
    "violation_count", "unmatched_count"]).filterMap
    (fun f => (mlookup check.metrics f).map (fun v => (f, v)))

/-- `_get_severity_distribution` (lines 201-210). -/
def severity_distribution (checks : List CheckResult) : List (String × MVal) :=
  [("critical", .num (checks.countP (fun c => c.severity == "critical"))),
   ("high", .num (checks.countP (fun c => c.severity == "high"))),
   ("medium", .num (checks.countP (fun c => c.severity == "medium"))),
   ("low", .num (checks.countP (fun c => c.severity == "low")))]

/-- A `DimensionScore`: score, weight, and the explainability payload. -/
structure DimScore where
  score : ℚ
  weight : ℚ
  explainability : List (String × MVal)

/-- Columns collected from `failing_columns` metrics into the impacted-set
(lines 128-133); the Python `set` is modelled in first-occurrence order. -/
def impactedColumns (checks : List CheckResult) : List String :=
  uniqueFirst (checks.flatMap (fun check =>
    match mlookup check.metrics "failing_columns" with
    | some (.arr l) => l.filterMap (fun v =>
        match v with
        | .dict d => match (d.find? (fun p => p.1 == "column")).map Prod.snd with
                     | some (.str s) => some s
                     | _ => none
        | _ => none)
    | _ => []))

/-- `_compute_dimension_score` (lines 80-158).  With no checks the result
is the fixed record score 100 / weight 1.0; otherwise the score is
`max(0, 100·(1 - weighted_error_rate))`, rounded, and the weight comes
from `_get_dimension_weight`. -/
def compute_dimension_score (dimension : String) (checks : List CheckResult)
    (profile : Profile) : DimScore :=
  if checks.isEmpty then
    { score := 100
      weight := 1
      explainability := [("message", .str "No checks executed for this dimension")] }
  else
    let total_error_weight := qsum (checks.map (fun c =>
      qmul (extract_error_rate c) (severityWeight c.severity)))
    let total_weight := qsum (checks.map (fun c => severityWeight c.severity))
    let failing_checks := (checks.filter (fun c => !c.passed)).map (fun c =>
      MVal.dict [("check_id", .str c.check_id),
                 ("severity", .str c.severity),
                 ("error_rate", .num (extract_error_rate c))])
    let weighted_error_rate :=
      if total_weight > 0 then qdiv total_error_weight total_weight else 0
    let score := max 0 (qmul 100 (qsub 1 weighted_error_rate))
    { score := round2 score
      weight := get_dimension_weight dimension profile
      explainability :=
        [("weighted_error_rate", .num (round4 weighted_error_rate)),
         ("formula", .str "score = max(0, 100 * (1 - weighted_error_rate))"),
         ("total_checks", .num checks.length),
         ("failing_checks", .arr failing_checks),
         ("metrics", .dict (checks.map (fun c =>
           (c.check_id, MVal.dict (extract_key_metrics c))))),
         ("impacted_columns", .strL (impactedColumns checks)),
         ("severity_distribution", .dict (severity_distribution checks))] }

/-- `_compute_composite_score` (lines 245-263): weighted mean over the
entries of the dimension-score mapping, with `dimension_weights.get(d, 1.0)`
lookups, rounded to two decimals. -/
def compute_composite_score (dimension_scores : List (String × DimScore))
    (dimension_weights : List (String × ℚ)) : ℚ :=
  let weightOf := fun (d : String) =>
    ((dimension_weights.find? (fun p => p.1 == d)).map Prod.snd).getD 1
  let total_weighted_score :=
    qsum (dimension_scores.map (fun p => qmul p.2.score (weightOf p.1)))
  let total_weight := qsum (dimension_scores.map (fun p => weightOf p.1))
  let composite :=
    if total_weight > 0 then qdiv total_weighted_score total_weight else 0
  round2 composite

/-- The scoring result consumed downstream. -/
structure ScoringResult where
  dimension_scores : List (String × DimScore)
  dimension_weights : List (String × ℚ)
  composite_dqs : ℚ

/-- `compute_scores` (lines 35-78).  Grouping the checks by their
`dimension` key and then reading the group of a selected dimension is the
order-preserving filter of the check list; dimensions are processed in
selection order. -/
def compute_scores (check_results : List CheckResult) (profile : Profile)
    (selected_dimensions : List String) : ScoringResult :=
  let checksFor := fun (d : String) =>
    check_results.filter (fun c => c.dimension.getD "unknown" == d)
  let dimension_scores := selected_dimensions.map (fun d =>
    (d, compute_dimension_score d (checksFor d) profile))
  let dimension_weights := dimension_scores.map (fun p => (p.1, p.2.weight))
  { dimension_scores := dimension_scores
    dimension_weights := dimension_weights
    composite_dqs := compute_composite_score dimension_scores dimension_weights }

end ScoringAgent

/-! ## Remediation Ranker (`backend/app/agents/remediation_agent.py`) -/

namespace RemediationAgent

/-- `_extract_frequency` (lines 108-121): the same priority search as the
Scoring Engine's `_extract_error_rate`, but with an unconditional `0.05`
fallback. -/
def extract_frequency (check : CheckResult) : ℚ :=
  match ScoringAgent.rateFields.findSome? (fun f => mlookup check.metrics f) with
  | some v => v.asFloat
  | none =>
    match ScoringAgent.matchFields.findSome? (fun f => mlookup check.metrics f) with
    | some v => qsub 1 v.asFloat
    | none => mkRat 5 100

/-- `severity_scores` (lines 51-56) with the `.get(severity, 4)` default. -/
def severityScore (severity : String) : ℚ :=
  (([("critical", (10 : ℚ)), ("high", 7), ("medium", 4), ("low", 2)].find?
    (fun p => p.1 == severity)).map Prod.snd).getD 4

/-- `impact_categories` (lines 58-66) with the "Operational" default. -/
def impactCategory (dimension : String) : String :=
  (([("completeness", "Operational"), ("uniqueness", "Financial"),
     ("validity", "Operational"), ("consistency", "Financial"),
     ("timeliness", "Operational"), ("integrity", "Regulatory"),
     ("reconciliation", "Financial")].find?
    (fun p => p.1 == dimension)).map Prod.snd).getD "Operational"

/-- `_estimate_score_gain` (lines 123-148). -/
def estimate_score_gain (check : CheckResult)
    (scoring : ScoringAgent.ScoringResult) : ℚ :=
  let dimension := check.dimension.getD "unknown"
  let current_score :=
    ((scoring.dimension_scores.find? (fun p => p.1 == dimension)).map
      (fun p => p.2.score)).getD 100
  let frequency := extract_frequency check
  let multiplier :=
    (([("critical", (1 : ℚ)), ("high", mkRat 7 10), ("medium", mkRat 4 10),
       ("low", mkRat 2 10)].find? (fun p => p.1 == check.severity)).map
      Prod.snd).getD (mkRat 4 10)
  let potential_gain := qmul (qmul frequency 100) multiplier
  let headroom := qsub 100 current_score
  min potential_gain headroom

/-- A `RemediationIssue`.  The descriptive string fields (`what`, `where`,
`root_cause`, `fix_steps`) are fixed lookup tables keyed by `check_id`
with no influence on ranking, and are not modelled. -/
structure Issue where
  check_id : String
  dimension : String
  severity : String
  priority_score : ℚ
  impact_category : String
  frequency : ℚ
  expected_score_gain : ℚ

/-- The issue built from one failing check (lines 68-101). -/
def issueOf (scoring : ScoringAgent.ScoringResult) (check : CheckResult) : Issue :=
  let dimension := check.dimension.getD "unknown"
  let criticality :=
    ((scoring.dimension_scores.find? (fun p => p.1 == dimension)).map
      (fun p => p.2.weight)).getD 1
  let frequency := extract_frequency check
  { check_id := check.check_id
    dimension := dimension
    severity := check.severity
    priority_score := round2 (qmul (qmul (severityScore check.severity) frequency)
      criticality)
    impact_category := impactCategory dimension
    frequency := round4 frequency
    expected_score_gain := round2 (estimate_score_gain check scoring) }

/-- The pre-sort issue list, in check-result order. -/
def issuesOf (check_results : List CheckResult)
    (scoring : ScoringAgent.ScoringResult) : List Issue :=
  (check_results.filter (fun c => !c.passed)).map (issueOf scoring)

/-- The comparator of `issues.sort(key := priority_score, reverse := True)`:
`a` may precede `b` iff its priority score is not smaller. -/
def issueLe (a b : Issue) : Bool := decide (b.priority_score ≤ a.priority_score)

/-- `_rank_issues` (lines 44-106): build issues from failing checks, then
stable-sort by priority score descending (Python's Timsort with
`reverse := True` keeps ties in original order). -/
def rank_issues (check_results : List CheckResult)
    (scoring : ScoringAgent.ScoringResult) : List Issue :=
  (issuesOf check_results scoring).mergeSort issueLe

/-- The headline list of `generate_remediation` (line 38): top 10 ranked
issues. -/
def top_issues (check_results : List CheckResult)
    (scoring : ScoringAgent.ScoringResult) : List Issue :=
  (rank_issues check_results scoring).take 10

end RemediationAgent

/-! ## Dimension Selector (`backend/app/agents/dimension_selector_agent.py`) -/

namespace DimensionSelectorAgent

/-- `has_references.get(k)` with the falsy default. -/
def refFlag (refs : List (String × Bool)) (k : String) : Bool :=
  ((refs.find? (fun p => p.1 == k)).map Prod.snd).getD false

/-- `select_dimensions` (lines 14-122), restricted to the selected
dimension list; the per-dimension rationale strings are deterministic
text with no influence on selection and are not modelled. -/
def select_dimensions (profile : Profile) (refs : List (String × Bool)) :
    List String :=
  ["completeness"] ++
  (if !profile.id_columns.isEmpty then ["uniqueness"] else []) ++
  (if !profile.enum_columns.isEmpty ||
      profile.columns.any (fun c => strContains (lowerStr c) "currency") ||
      profile.columns.any (fun c => strContains (lowerStr c) "country") ||
      profile.columns.any (fun c => strContains (lowerStr c) "mcc") ||
      profile.columns.any (fun c => strContains (lowerStr c) "amount") then
    ["validity"] else []) ++
  (if profile.columns.any (fun c => strContains (lowerStr c) "status") ||
      profile.timestamp_columns.length > 1 then
    ["consistency"] else []) ++
  (if !profile.timestamp_columns.isEmpty then ["timeliness"] else []) ++
  (if refFlag refs "merchants" || refFlag refs "customers" then
    ["integrity"] else []) ++
  (if refFlag refs "settlement_ledger" || refFlag refs "bin_map" then
    ["reconciliation"] else [])

end DimensionSelectorAgent

/-! ## Concrete fixtures and claim-side predicates -/

/-- The empty profile used for concrete counterexamples. -/
def profile0 : Profile := ⟨0, 0, [], [], [], [], [], []⟩

/-- The 100-row frame for the C7 counterexample: one invalid currency
among 100 rows, overall invalid rate exactly 0.01. -/
def dfCurrency100 : DataFrame :=
  ⟨100, [("currency", .str "XXX" :: List.replicate 99 (.str "USD"))]⟩

/-- The fixed dimension order of the selector's output. -/
def dimensionOrder : List String :=
  ["completeness", "uniqueness", "validity", "consistency", "timeliness",
   "integrity", "reconciliation"]

/-- The per-dimension inclusion predicate of the claim's table. -/
def dimensionApplies (profile : Profile) (refs : List (String × Bool))
    (d : String) : Bool :=
  if d == "completeness" then true
  else if d == "uniqueness" then !profile.id_columns.isEmpty
  else if d == "validity" then
    !profile.enum_columns.isEmpty ||
    profile.columns.any (fun c => strContains (lowerStr c) "currency") ||
    profile.columns.any (fun c => strContains (lowerStr c) "country") ||
    profile.columns.any (fun c => strContains (lowerStr c) "mcc") ||
    profile.columns.any (fun c => strContains (lowerStr c) "amount")
  else if d == "consistency" then
    profile.columns.any (fun c => strContains (lowerStr c) "status") ||
    profile.timestamp_columns.length > 1
  else if d == "timeliness" then !profile.timestamp_columns.isEmpty
  else if d == "integrity" then
    DimensionSelectorAgent.refFlag refs "merchants" ||
    DimensionSelectorAgent.refFlag refs "customers"
  else if d == "reconciliation" then
    DimensionSelectorAgent.refFlag refs "settlement_ledger" ||
    DimensionSelectorAgent.refFlag refs "bin_map"
  else false

/-- The uniform inapplicable-check outcome: a passing, low-severity result
whose metrics carry a diagnostic message. -/
def isInapplicablePass (r : CheckResult) : Prop :=
  r.passed = true ∧ r.severity = "low" ∧
  ∃ msg, mlookup r.metrics "message" = some (.str msg)

/-! ## Bridge lemmas: the kernel-reducible wrappers agree with the
field operations on `ℚ` -/

theorem qadd_eq (a b : ℚ) : qadd a b = a + b := by
  conv_rhs => rw [← Rat.num_div_den a, ← Rat.num_div_den b]
  rw [qadd, Rat.mkRat_eq_div,
    div_add_div _ _ (by exact_mod_cast a.den_nz) (by exact_mod_cast b.den_nz)]
  push_cast
  ring_nf

theorem qsub_eq (a b : ℚ) : qsub a b = a - b := by
  conv_rhs => rw [← Rat.num_div_den a, ← Rat.num_div_den b]
  rw [qsub, Rat.mkRat_eq_div,
    div_sub_div _ _ (by exact_mod_cast a.den_nz) (by exact_mod_cast b.den_nz)]
  push_cast
  ring_nf

theorem qmul_eq (a b : ℚ) : qmul a b = a * b := by
  conv_rhs => rw [← Rat.num_div_den a, ← Rat.num_div_den b]
  rw [qmul, Rat.mkRat_eq_div, div_mul_div_comm]
  push_cast
  ring_nf

theorem qneg_eq (a : ℚ) : qneg a = -a := by
  conv_rhs => rw [← Rat.num_div_den a]
  rw [qneg, Rat.mkRat_eq_div]
  push_cast
  ring

theorem qinv_eq (a : ℚ) : qinv a = a⁻¹ := by
  rw [qinv]
  rcases lt_trichotomy a.num 0 with h | h | h
  · rw [if_pos h]
    conv_rhs => rw [← Rat.num_div_den a]
    rw [inv_div, Rat.mkRat_eq_div]
    push_cast [Int.cast_natAbs]
    rw [abs_of_neg (show (a.num : ℚ) < 0 by exact_mod_cast h)]
    rw [neg_div_neg_eq]
  · rw [if_neg (by omega)]
    have ha : a = 0 := by
      have := Rat.num_div_den a
      rw [h] at this
      simpa using this.symm
    subst ha
    simp [Rat.mkRat_eq_div]
  · rw [if_neg (by omega)]
    conv_rhs => rw [← Rat.num_div_den a]
    rw [inv_div, Rat.mkRat_eq_div]
    push_cast [Int.cast_natAbs]
    rw [abs_of_pos (show (0 : ℚ) < a.num by exact_mod_cast h)]

theorem qdiv_eq (a b : ℚ) : qdiv a b = a / b := by
  rw [qdiv, qmul_eq, qinv_eq, div_eq_mul_inv]

theorem qabs_eq (a : ℚ) : qabs a = |a| := by
  conv_rhs => rw [← Rat.num_div_den a, abs_div]
  rw [qabs, Rat.mkRat_eq_div]
  push_cast
  rw [abs_of_nonneg (show (0 : ℚ) ≤ (a.den : ℚ) by positivity)]

theorem qsum_eq (l : List ℚ) : qsum l = l.sum := by
  induction l with
  | nil => rfl
  | cons a t ih => rw [qsum, List.foldr_cons, List.sum_cons, ← qsum, ih, qadd_eq]

theorem pyFloor_eq (q : ℚ) : pyFloor q = ⌊q⌋ := Rat.floor_def.symm

theorem round2_eq (q : ℚ) : round2 q = ((⌊q * 100 + 1 / 2⌋ : ℤ) : ℚ) / 100 := by
  rw [round2, Rat.mkRat_eq_div, pyFloor_eq, qadd_eq, qmul_eq, Rat.mkRat_eq_div]
  norm_num

theorem round4_eq (q : ℚ) :
    round4 q = ((⌊q * 10000 + 1 / 2⌋ : ℤ) : ℚ) / 10000 := by
  rw [round4, Rat.mkRat_eq_div, pyFloor_eq, qadd_eq, qmul_eq, Rat.mkRat_eq_div]
  norm_num

theorem round2_nonneg {q : ℚ} (h : 0 ≤ q) : 0 ≤ round2 q := by
  rw [round2_eq]
  have h1 : (0 : ℤ) ≤ ⌊q * 100 + 1 / 2⌋ := by
    rw [Int.le_floor]
    push_cast
    nlinarith
  positivity

theorem round2_le {q c : ℚ} (hq : q ≤ c) (hc : round2 c = c) : round2 q ≤ c := by
  rw [← hc, round2_eq, round2_eq]
  have h1 : ⌊q * 100 + 1 / 2⌋ ≤ ⌊c * 100 + 1 / 2⌋ := by
    apply Int.floor_le_floor
    nlinarith
  have h2 : ((⌊q * 100 + 1 / 2⌋ : ℤ) : ℚ) ≤ ((⌊c * 100 + 1 / 2⌋ : ℤ) : ℚ) := by
    exact_mod_cast h1
  linarith

/-! ## Shared facts about the embedding -/

theorem round2_zero : round2 0 = 0 := by decide

theorem round2_hundred : round2 100 = 100 := by decide

/-- The base-weight lookup can only produce the three table values or the
default. -/
theorem base_weight_cases (d : String) :
    ((ScoringAgent.base_weights.find? (fun p => p.1 == d)).map Prod.snd).getD 2 = 2 ∨
    ((ScoringAgent.base_weights.find? (fun p => p.1 == d)).map Prod.snd).getD 2 = 3 ∨
    ((ScoringAgent.base_weights.find? (fun p => p.1 == d)).map Prod.snd).getD 2 = mkRat 5 2 := by
  cases hf : ScoringAgent.base_weights.find? (fun p => p.1 == d) with
  | none => left; simp [hf]
  | some x =>
    have hx := List.mem_of_find?_eq_some hf
    simp only [ScoringAgent.base_weights, List.mem_cons, List.not_mem_nil, or_false] at hx
    rcases hx with h | h | h | h | h | h | h <;> subst h <;> simp [hf]

/-- The severity-weight lookup produces a value between 1 and 4. -/
theorem severityWeight_bounds (s : String) :
    1 ≤ ScoringAgent.severityWeight s ∧ ScoringAgent.severityWeight s ≤ 4 := by
  unfold ScoringAgent.severityWeight
  cases hf : [("critical", (4 : ℚ)), ("high", 3), ("medium", 2), ("low", 1)].find?
      (fun p => p.1 == s) with
  | none => simp [hf]; norm_num
  | some x =>
    have hx := List.mem_of_find?_eq_some hf
    simp only [List.mem_cons, List.not_mem_nil, or_false] at hx
    rcases hx with h | h | h | h <;> subst h <;> simp [hf] <;> norm_num

/-- `_get_dimension_weight` in closed form: the two-decimal rounding is
lossless on every reachable value, so the weight is exactly the base
weight times the criticality multiplier. -/
theorem get_dimension_weight_eq (d : String) (p : Profile) :
    ScoringAgent.get_dimension_weight d p =
      (((ScoringAgent.base_weights.find? (fun q => q.1 == d)).map Prod.snd).getD 2) *
      (if 10 < ScoringAgent.critical_count p then mkRat 6 5 else 1) := by
  by_cases hc : ScoringAgent.critical_count p > 10
  · simp only [ScoringAgent.get_dimension_weight, if_pos hc]
    rcases base_weight_cases d with h | h | h <;> rw [h] <;>
      rw [round2_eq, qmul_eq] <;> norm_num [Rat.mkRat_eq_div]
  · simp only [ScoringAgent.get_dimension_weight, if_neg hc]
    rcases base_weight_cases d with h | h | h <;> rw [h] <;>
      rw [round2_eq] <;> norm_num [Rat.mkRat_eq_div]

/-! ## Claim C1: dimension weights -/

/-- C1 counterexample: selecting `completeness` with zero checks attaches
weight 1.0 to its DimensionScore (and to the composite), not the claimed
`base_weight(completeness) × 1.0 = 2.0` that `_get_dimension_weight`
would give for the same profile. -/
theorem C1_counterexample :
    (ScoringAgent.compute_scores [] profile0 ["completeness"]).dimension_weights
      = [("completeness", 1)] ∧
    ScoringAgent.get_dimension_weight "completeness" profile0 = 2 := by
  constructor
  · rfl
  · decide

/-- C1 (amended): for a selected dimension with at least one check, the
weight attached to its DimensionScore equals
`base_weight(dimension) × (1.2 if criticality > 10 else 1.0)` with the
criticality tally summing the source's `FIELD_CRITICALITY` table over all
column names (the rounding to two decimals is lossless); a selected
dimension with zero checks instead gets score 100 and weight 1.0. -/
theorem C1_amended_weight (dimension : String) (checks : List CheckResult)
    (profile : Profile) :
    (checks ≠ [] →
      (ScoringAgent.compute_dimension_score dimension checks profile).weight =
        (((ScoringAgent.base_weights.find? (fun q => q.1 == dimension)).map
            Prod.snd).getD 2) *
        (if 10 < ScoringAgent.critical_count profile then mkRat 6 5 else 1)) ∧
    (checks = [] →
      (ScoringAgent.compute_dimension_score dimension checks profile).weight = 1 ∧
      (ScoringAgent.compute_dimension_score dimension checks profile).score = 100) := by
  constructor
  · intro h
    have hne : checks.isEmpty = false := by
      cases checks with
      | nil => exact absurd rfl h
      | cons a t => rfl
    simp only [ScoringAgent.compute_dimension_score, hne, Bool.false_eq_true,
      if_false]
    exact get_dimension_weight_eq dimension profile
  · intro h
    subst h
    exact ⟨rfl, rfl⟩

/-- C1 witness: a dimension with one check on a criticality-heavy profile
gets weight 3.6 = 3.0 × 1.2. -/
theorem C1_witness :
    (ScoringAgent.compute_dimension_score "uniqueness"
      [⟨"uniqueness_duplicates", true, "low", [], some "uniqueness"⟩]
      ⟨0, 0, ["amount", "currency", "status", "customer_id"], [], [], [], [], []⟩).weight
      = mkRat 18 5 := by
  rw [(C1_amended_weight "uniqueness"
    [⟨"uniqueness_duplicates", true, "low", [], some "uniqueness"⟩]
    ⟨0, 0, ["amount", "currency", "status", "customer_id"], [], [], [], [], []⟩).1
    (by simp)]
  have hc : 10 < ScoringAgent.critical_count
      ⟨0, 0, ["amount", "currency", "status", "customer_id"], [], [], [], [], []⟩ := by
    decide
  rw [if_pos hc]
  have hw : ((ScoringAgent.base_weights.find? (fun q => q.1 == "uniqueness")).map
      Prod.snd).getD 2 = 3 := by decide
  rw [hw]
  norm_num [Rat.mkRat_eq_div]

/-! ## Claim C3: zero-row datasets crash the uniqueness key inference -/

/-- C3: the spec demands that no check raises and that zero-row datasets
never divide by zero, but `infer_key_columns` (uniqueness.py line 35)
divides `unique_count / total_count` in its first-column fallback with no
guard, so a dataset with zero rows and one (non-id-named) column makes
`run_uniqueness_checks` raise `ZeroDivisionError` instead of returning a
CheckResult. -/
theorem C3_zero_row_division :
    run_uniqueness_checks ⟨0, [("amount", [])]⟩ = .error "ZeroDivisionError" := rfl

/-! ## Claim C9: the two error-rate extractions agree on failing checks -/

/-- C9: on every check result with `passed = false`, the Remediation
Ranker's frequency extraction returns exactly the Scoring Engine's error
rate: the two priority searches coincide field by field, and the final
fallbacks (`0.05 if failed else 0` versus unconditional `0.05`) agree
because the check failed. -/
theorem C9_frequency_eq_error_rate (check : CheckResult)
    (h : check.passed = false) :
    RemediationAgent.extract_frequency check = ScoringAgent.extract_error_rate check := by
  unfold RemediationAgent.extract_frequency ScoringAgent.extract_error_rate
  cases hf : ScoringAgent.rateFields.findSome? (fun f => mlookup check.metrics f) with
  | some v => rfl
  | none =>
    cases hg : ScoringAgent.matchFields.findSome? (fun f => mlookup check.metrics f) with
    | some v => rfl
    | none => simp [h]

/-- C9 witness: a failing check with no recognised metric fields extracts
0.05 on both sides. -/
theorem C9_witness :
    RemediationAgent.extract_frequency ⟨"x", false, "high", [], none⟩ = mkRat 5 100 ∧
    ScoringAgent.extract_error_rate ⟨"x", false, "high", [], none⟩ = mkRat 5 100 := by
  have h := C9_frequency_eq_error_rate ⟨"x", false, "high", [], none⟩ rfl
  exact ⟨by rw [h]; decide, by rw [← h]; decide⟩

/-! ## Claim C7: validity severity thresholds -/

/-- C7 counterexample: at overall invalid rate 0.01 (not `> 0.01`) the
claim says the currency severity is "low", but the source has a third
tier and returns "medium" whenever the rate is positive but at most
0.01. -/
theorem C7_counterexample :
    metricNum (check_currency_validity dfCurrency100) "overall_invalid_rate"
      = some (mkRat 1 100) ∧
    ¬ (mkRat 1 100 > mkRat 1 100) ∧
    (check_currency_validity dfCurrency100).severity = "medium" := by
  refine ⟨?_, by decide, ?_⟩ <;>
    (set_option maxRecDepth 10000 in decide)

/-- C7 (amended): the currency validity severity is "high" when the
overall invalid rate exceeds 0.01, "medium" when it is positive but at
most 0.01, and "low" when it is zero (or when no currency column exists);
the country and MCC validity severities are "medium" when the rate
exceeds 0.01 and "low" otherwise, as claimed. -/
theorem C7_amended_severity (df : DataFrame) (ref : Option DataFrame) :
    ((check_currency_validity df).severity =
      match metricNum (check_currency_validity df) "overall_invalid_rate" with
      | some r => if r > mkRat 1 100 then "high"
                  else if r > 0 then "medium" else "low"
      | none => "low") ∧
    ((check_country_validity df).severity =
      match metricNum (check_country_validity df) "overall_invalid_rate" with
      | some r => if r > mkRat 1 100 then "medium" else "low"
      | none => "low") ∧
    ((check_mcc_validity df ref).severity =
      match metricNum (check_mcc_validity df ref) "overall_invalid_rate" with
      | some r => if r > mkRat 1 100 then "medium" else "low"
      | none => "low") := by
  refine ⟨?_, ?_, ?_⟩
  · by_cases hc : (df.columns.filter (fun c => strContains (lowerStr c) "currency")).isEmpty <;>
      simp [check_currency_validity, hc, metricNum, mlookup, List.find?]
  · by_cases hc : (df.columns.filter (fun c => strContains (lowerStr c) "country")).isEmpty <;>
      simp [check_country_validity, hc, metricNum, mlookup, List.find?]
  · by_cases hc : (df.columns.filter (fun c => strContains (lowerStr c) "mcc")).isEmpty <;>
      simp [check_mcc_validity, hc, metricNum, mlookup, List.find?]

/-! ## Claim C10: null currency values count as invalid -/

/-- C10: in a non-empty dataset, a null in a currency column is
stringified to `"nan"` (uppercased `"NAN"`) before the ISO-membership
test, so the null-exclusion conjunct of the mask excludes nothing and
every null counts as invalid; a currency column whose only defect is null
values therefore yields a positive overall invalid rate and
`passed = false`. -/
theorem C10_nulls_are_invalid (df : DataFrame) (col : String)
    (hrows : 0 < df.nrows)
    (hcol : col ∈ df.columns.filter (fun c => strContains (lowerStr c) "currency"))
    (_honly : ∀ c ∈ df.colData col,
      c = Cell.null ∨ VALID_CURRENCIES.contains (upperStr (cellToStr c)) = true)
    (hnull : Cell.null ∈ df.colData col) :
    ∃ r, metricNum (check_currency_validity df) "overall_invalid_rate" = some r ∧
      0 < r ∧ (check_currency_validity df).passed = false := by
  classical
  set ccols := df.columns.filter (fun c => strContains (lowerStr c) "currency") with hcc
  have hne : ccols.isEmpty = false := by
    cases hl : ccols with
    | nil => rw [hl] at hcol; exact absurd hcol (List.not_mem_nil _)
    | cons a t => rfl
  have hlen : 0 < ccols.length := by
    cases hl : ccols with
    | nil => rw [hl] at hcol; exact absurd hcol (List.not_mem_nil _)
    | cons a t => simp
  have hcond : (decide (df.nrows > 0) && !ccols.isEmpty) = true := by
    simp [hne, hrows]
  -- the tally of `col` counts at least the null cell
  have htallypos : 0 < (colTally df col
      (fun v => !VALID_CURRENCIES.contains v)).invalid_count := by
    unfold colTally
    have hmem : upperStr (cellToStr Cell.null) ∈
        ((df.colData col).map (fun c => upperStr (cellToStr c))).filter
          (fun v => !VALID_CURRENCIES.contains v) := by
      rw [List.mem_filter]
      exact ⟨List.mem_map_of_mem _ hnull, by decide⟩
    exact List.length_pos.mpr (List.ne_nil_of_mem hmem)
  -- hence the total invalid count is positive
  have htotal : 0 < ((ccols.map (fun c => colTally df c
      (fun v => !VALID_CURRENCIES.contains v))).map
        (fun t => t.invalid_count)).sum := by
    have hmem : (colTally df col (fun v => !VALID_CURRENCIES.contains v)).invalid_count
        ∈ (ccols.map (fun c => colTally df c
            (fun v => !VALID_CURRENCIES.contains v))).map (fun t => t.invalid_count) :=
      List.mem_map_of_mem _ (List.mem_map_of_mem _ hcol)
    calc 0 < (colTally df col (fun v => !VALID_CURRENCIES.contains v)).invalid_count :=
          htallypos
      _ ≤ _ := List.single_le_sum (fun x _ => Nat.zero_le x) _ hmem
  have hratepos : 0 < (mkRat
      (((ccols.map (fun c => colTally df c
        (fun v => !VALID_CURRENCIES.contains v))).map (fun t => t.invalid_count)).sum : ℕ)
      (df.nrows * ccols.length) : ℚ) := by
    rw [Rat.mkRat_eq_div]
    apply div_pos
    · exact_mod_cast htotal
    · exact_mod_cast Nat.mul_pos hrows hlen
  refine ⟨_, ?_, hratepos, ?_⟩
  · simp only [check_currency_validity, ← hcc, hne, Bool.false_eq_true, if_false,
      hcond, if_true, metricNum, mlookup, List.find?]
    simp [hrows, Function.comp]
    congr 1
  · have hpassed : (check_currency_validity df).passed =
        (mkRat (((ccols.map (fun c => colTally df c
          (fun v => !VALID_CURRENCIES.contains v))).map
            (fun t => t.invalid_count)).sum : ℕ) (df.nrows * ccols.length) == 0) := by
      simp only [check_currency_validity, ← hcc, hne, Bool.false_eq_true, if_false,
        hcond, if_true]
      simp [hrows, Function.comp]
      exact Iff.rfl
    rw [hpassed]
    exact beq_eq_false_iff_ne.mpr (ne_of_gt hratepos)

/-- C10 witness: a single-row frame whose currency column holds one null
has a positive invalid rate and fails the check. -/
theorem C10_witness :
    ∃ r, metricNum (check_currency_validity ⟨1, [("currency", [Cell.null])]⟩)
        "overall_invalid_rate" = some r ∧
      0 < r ∧
      (check_currency_validity ⟨1, [("currency", [Cell.null])]⟩).passed = false :=
  C10_nulls_are_invalid ⟨1, [("currency", [Cell.null])]⟩ "currency"
    (by decide) (by decide) (by decide) (by decide)

/-! ## Claim C8: the dimension selector is the predicate table -/

/-- C8: for every profile and reference-availability assignment, the
selector returns exactly the dimensions whose predicate holds, in the
fixed order, with completeness always first. -/
theorem C8_selector_is_predicate_table (profile : Profile)
    (refs : List (String × Bool)) :
    DimensionSelectorAgent.select_dimensions profile refs =
      dimensionOrder.filter (dimensionApplies profile refs) ∧
    (DimensionSelectorAgent.select_dimensions profile refs).head? =
      some "completeness" := by
  constructor
  · simp only [dimensionOrder]
    rw [List.filter_cons, List.filter_cons, List.filter_cons, List.filter_cons,
      List.filter_cons, List.filter_cons, List.filter_cons, List.filter_nil]
    rw [show dimensionApplies profile refs "completeness" = true from rfl]
    rw [show dimensionApplies profile refs "uniqueness" =
      !profile.id_columns.isEmpty from rfl]
    rw [show dimensionApplies profile refs "validity" =
      (!profile.enum_columns.isEmpty ||
       profile.columns.any (fun c => strContains (lowerStr c) "currency") ||
       profile.columns.any (fun c => strContains (lowerStr c) "country") ||
       profile.columns.any (fun c => strContains (lowerStr c) "mcc") ||
       profile.columns.any (fun c => strContains (lowerStr c) "amount")) from rfl]
    rw [show dimensionApplies profile refs "consistency" =
      (profile.columns.any (fun c => strContains (lowerStr c) "status") ||
       profile.timestamp_columns.length > 1) from rfl]
    rw [show dimensionApplies profile refs "timeliness" =
      !profile.timestamp_columns.isEmpty from rfl]
    rw [show dimensionApplies profile refs "integrity" =
      (DimensionSelectorAgent.refFlag refs "merchants" ||
       DimensionSelectorAgent.refFlag refs "customers") from rfl]
    rw [show dimensionApplies profile refs "reconciliation" =
      (DimensionSelectorAgent.refFlag refs "settlement_ledger" ||
       DimensionSelectorAgent.refFlag refs "bin_map") from rfl]
    simp only [DimensionSelectorAgent.select_dimensions, if_true]
    split_ifs <;> rfl
  · rfl

/-! ## Claim C6: remediation ranking order and stability -/

/-- The comparator used by the ranking sort is transitive. -/
theorem issueLe_trans (a b c : RemediationAgent.Issue)
    (h1 : RemediationAgent.issueLe a b = true)
    (h2 : RemediationAgent.issueLe b c = true) :
    RemediationAgent.issueLe a c = true := by
  simp only [RemediationAgent.issueLe, decide_eq_true_eq] at *
  exact le_trans h2 h1

/-- The comparator used by the ranking sort is total. -/
theorem issueLe_total (a b : RemediationAgent.Issue) :
    (RemediationAgent.issueLe a b || RemediationAgent.issueLe b a) = true := by
  simp only [RemediationAgent.issueLe, Bool.or_eq_true, decide_eq_true_eq]
  exact le_total b.priority_score a.priority_score

/-- C6: the headline list is the first 10 elements of the failing-check
issues sorted by priority score in non-increasing order, and the sort is
stable: for each priority value, the ranked issues with that score appear
exactly as in the original check-result order. -/
theorem C6_ranking_stable_top10 (cr : List CheckResult)
    (scoring : ScoringAgent.ScoringResult) :
    RemediationAgent.top_issues cr scoring =
      (RemediationAgent.rank_issues cr scoring).take 10 ∧
    (RemediationAgent.rank_issues cr scoring).Pairwise
      (fun a b => b.priority_score ≤ a.priority_score) ∧
    ∀ q : ℚ, (RemediationAgent.rank_issues cr scoring).filter
        (fun i => decide (i.priority_score = q)) =
      (RemediationAgent.issuesOf cr scoring).filter
        (fun i => decide (i.priority_score = q)) := by
  refine ⟨rfl, ?_, ?_⟩
  · have h := List.sorted_mergeSort issueLe_trans issueLe_total
      (RemediationAgent.issuesOf cr scoring)
    exact h.imp (fun hab => by
      simpa [RemediationAgent.issueLe, decide_eq_true_eq] using hab)
  · intro q
    set l := RemediationAgent.issuesOf cr scoring with hl
    set p : RemediationAgent.Issue → Bool := fun i => decide (i.priority_score = q)
      with hp
    have hmemq : ∀ a ∈ l.filter p, a.priority_score = q := by
      intro a ha
      have := (List.mem_filter.mp ha).2
      rw [hp] at this
      exact of_decide_eq_true this
    have hc : (l.filter p).Pairwise (fun a b => RemediationAgent.issueLe a b = true) := by
      apply List.pairwise_of_forall_mem_list
      intro a ha b hb
      simp only [RemediationAgent.issueLe, decide_eq_true_eq]
      rw [hmemq a ha, hmemq b hb]
    have hsub : (l.filter p).Sublist (l.mergeSort RemediationAgent.issueLe) :=
      List.sublist_mergeSort issueLe_trans issueLe_total hc (List.filter_sublist l)
    have hfp : (l.filter p).filter p = l.filter p :=
      List.filter_eq_self.mpr (fun a ha => (List.mem_filter.mp ha).2)
    have hsub2 : (l.filter p).Sublist
        ((l.mergeSort RemediationAgent.issueLe).filter p) := by
      have h2 := hsub.filter p
      rwa [hfp] at h2
    have hperm : ((l.mergeSort RemediationAgent.issueLe).filter p).Perm (l.filter p) :=
      (List.mergeSort_perm l RemediationAgent.issueLe).filter p
    exact (hsub2.eq_of_length hperm.length_eq.symm).symm

/-! ## Claim C4: composite over exactly the selected dimensions -/

/-- Looking a key up in the weight mapping derived from a dimension-score
mapping with distinct keys returns that entry's weight. -/
theorem find_weight_of_nodup (ds : List (String × ScoringAgent.DimScore))
    (hnd : (ds.map Prod.fst).Nodup) (p : String × ScoringAgent.DimScore)
    (hp : p ∈ ds) :
    (((ds.map (fun x => (x.1, x.2.weight))).find? (fun x => x.1 == p.1)).map
      Prod.snd).getD 1 = p.2.weight := by
  induction ds with
  | nil => cases hp
  | cons a t ih =>
    rcases List.mem_cons.mp hp with h | h
    · subst h
      simp [List.find?]
    · have hne : a.1 ≠ p.1 := by
        have h1 := (List.nodup_cons.mp hnd).1
        intro hcon
        exact h1 (hcon ▸ List.mem_map_of_mem Prod.fst h)
      have hbeq : (a.1 == p.1) = false := beq_eq_false_iff_ne.mpr hne
      simp only [List.map_cons, List.find?, hbeq]
      exact ih (List.nodup_cons.mp hnd).2 h

/-- `_compute_composite_score` in closed form, when the weight mapping
agrees with the score mapping. -/
theorem composite_closed_form (ds : List (String × ScoringAgent.DimScore))
    (dw : List (String × ℚ))
    (hw : ∀ p ∈ ds, ((dw.find? (fun x => x.1 == p.1)).map Prod.snd).getD 1
      = p.2.weight) :
    ScoringAgent.compute_composite_score ds dw =
      round2 (if 0 < (ds.map (fun p => p.2.weight)).sum then
        (ds.map (fun p => p.2.score * p.2.weight)).sum /
          (ds.map (fun p => p.2.weight)).sum
      else 0) := by
  simp only [ScoringAgent.compute_composite_score]
  have h1 : ds.map (fun p => qmul p.2.score
      (((dw.find? (fun x => x.1 == p.1)).map Prod.snd).getD 1)) =
      ds.map (fun p => p.2.score * p.2.weight) :=
    List.map_congr_left (fun p hp => by rw [hw p hp, qmul_eq])
  have h2 : ds.map (fun p => ((dw.find? (fun x => x.1 == p.1)).map Prod.snd).getD 1) =
      ds.map (fun p => p.2.weight) :=
    List.map_congr_left (fun p hp => hw p hp)
  rw [h1, h2, qsum_eq, qsum_eq]
  by_cases hpos : 0 < (ds.map (fun p => p.2.weight)).sum
  · rw [if_pos hpos, if_pos hpos, qdiv_eq]
  · rw [if_neg hpos, if_neg hpos]

/-- C4: the dimension-score mapping has a key for each selected dimension
in selection order and none for unselected dimensions, and the composite
is the weighted mean `Σ(score·weight)/Σ(weight)` over exactly those
entries. -/
theorem C4_composite_selected_only (cr : List CheckResult) (profile : Profile)
    (sel : List String) (hnd : sel.Nodup) :
    ((ScoringAgent.compute_scores cr profile sel).dimension_scores.map Prod.fst
      = sel) ∧
    (∀ d, d ∉ sel →
      (ScoringAgent.compute_scores cr profile sel).dimension_scores.find?
        (fun p => p.1 == d) = none) ∧
    ((ScoringAgent.compute_scores cr profile sel).composite_dqs =
      round2 (if 0 < ((ScoringAgent.compute_scores cr profile sel).dimension_scores.map
          (fun p => p.2.weight)).sum then
        ((ScoringAgent.compute_scores cr profile sel).dimension_scores.map
          (fun p => p.2.score * p.2.weight)).sum /
        ((ScoringAgent.compute_scores cr profile sel).dimension_scores.map
          (fun p => p.2.weight)).sum
      else 0)) := by
  have hkeys : (ScoringAgent.compute_scores cr profile sel).dimension_scores.map
      Prod.fst = sel := by
    show (sel.map (fun d => (d, ScoringAgent.compute_dimension_score d
      (cr.filter (fun c => c.dimension.getD "unknown" == d)) profile))).map
        Prod.fst = sel
    induction sel with
    | nil => rfl
    | cons a t ih =>
      simp only [List.map_cons, List.cons.injEq]
      exact ⟨trivial, ih (List.nodup_cons.mp hnd).2⟩
  refine ⟨hkeys, ?_, ?_⟩
  · intro d hd
    rw [List.find?_eq_none]
    intro x hx
    have hx1 : x.1 ∈ sel := hkeys ▸ List.mem_map_of_mem Prod.fst hx
    simp only [beq_iff_eq]
    intro hcon
    exact hd (hcon ▸ hx1)
  · have hdw : (ScoringAgent.compute_scores cr profile sel).dimension_weights =
        (ScoringAgent.compute_scores cr profile sel).dimension_scores.map
          (fun x => (x.1, x.2.weight)) := rfl
    have hcomp : (ScoringAgent.compute_scores cr profile sel).composite_dqs =
        ScoringAgent.compute_composite_score
          (ScoringAgent.compute_scores cr profile sel).dimension_scores
          (ScoringAgent.compute_scores cr profile sel).dimension_weights := rfl
    rw [hcomp, hdw]
    exact composite_closed_form _ _
      (fun p hp => find_weight_of_nodup _ (by rw [hkeys]; exact hnd) p hp)

/-- C4 witness: one selected dimension with no checks gives mapping
`[("completeness", …)]`, no entry for an unselected dimension, and
composite 100. -/
theorem C4_witness :
    (ScoringAgent.compute_scores [] profile0 ["completeness"]).dimension_scores.map
      Prod.fst = ["completeness"] ∧
    (ScoringAgent.compute_scores [] profile0 ["completeness"]).dimension_scores.find?
      (fun p => p.1 == "validity") = none ∧
    (ScoringAgent.compute_scores [] profile0 ["completeness"]).composite_dqs = 100 := by
  have h := C4_composite_selected_only [] profile0 ["completeness"]
    (List.nodup_singleton "completeness")
  refine ⟨h.1, h.2.1 "validity" (by decide), ?_⟩
  rw [h.2.2]
  norm_num [ScoringAgent.compute_scores, ScoringAgent.compute_dimension_score,
    round2_eq]

/-! ## Claim C5: score bounds -/

/-- Association lookup in a list of pairs built from a key list, at a key
that occurs: the first matching entry carries the value determined by the
key. -/
theorem find_map_key {β : Type} (f : String → β) (l : List String) (d : String)
    (hd : d ∈ l) :
    (l.map (fun x => (x, f x))).find? (fun p => p.1 == d) = some (d, f d) := by
  induction l with
  | nil => cases hd
  | cons a t ih =>
    by_cases ha : a = d
    · subst ha
      simp [List.find?]
    · have hbeq : (a == d) = false := beq_eq_false_iff_ne.mpr ha
      simp only [List.map_cons, List.find?, hbeq]
      refine ih ?_
      rcases List.mem_cons.mp hd with h | h
      · exact absurd h.symm ha
      · exact h

/-- With nonnegative extracted error rates, every dimension score lies in
`[0, 100]`. -/
theorem dim_score_bounds (d : String) (checks : List CheckResult) (p : Profile)
    (h : ∀ c ∈ checks, 0 ≤ ScoringAgent.extract_error_rate c) :
    0 ≤ (ScoringAgent.compute_dimension_score d checks p).score ∧
    (ScoringAgent.compute_dimension_score d checks p).score ≤ 100 := by
  by_cases hc : checks.isEmpty
  · simp only [ScoringAgent.compute_dimension_score, hc, if_true]
    norm_num
  · simp only [ScoringAgent.compute_dimension_score, hc, Bool.false_eq_true,
      if_false]
    have hte : 0 ≤ qsum (checks.map (fun c =>
        qmul (ScoringAgent.extract_error_rate c)
          (ScoringAgent.severityWeight c.severity))) := by
      rw [qsum_eq]
      apply List.sum_nonneg
      intro x hx
      obtain ⟨c, hcm, rfl⟩ := List.mem_map.mp hx
      rw [qmul_eq]
      exact mul_nonneg (h c hcm)
        (le_trans zero_le_one (severityWeight_bounds c.severity).1)
    have hwer : 0 ≤ (if qsum (checks.map (fun c =>
        ScoringAgent.severityWeight c.severity)) > 0 then
          qdiv (qsum (checks.map (fun c =>
            qmul (ScoringAgent.extract_error_rate c)
              (ScoringAgent.severityWeight c.severity))))
            (qsum (checks.map (fun c => ScoringAgent.severityWeight c.severity)))
        else 0) := by
      by_cases htw : qsum (checks.map (fun c =>
          ScoringAgent.severityWeight c.severity)) > 0
      · rw [if_pos htw, qdiv_eq]
        exact div_nonneg hte htw.le
      · rw [if_neg htw]
    constructor
    · exact round2_nonneg (le_max_left 0 _)
    · apply round2_le _ round2_hundred
      apply max_le (by norm_num)
      rw [qmul_eq, qsub_eq]
      nlinarith [hwer]

/-- Every dimension weight is nonnegative. -/
theorem dim_weight_nonneg (d : String) (checks : List CheckResult) (p : Profile) :
    0 ≤ (ScoringAgent.compute_dimension_score d checks p).weight := by
  by_cases hc : checks.isEmpty
  · simp only [ScoringAgent.compute_dimension_score, hc, if_true]
    norm_num
  · simp only [ScoringAgent.compute_dimension_score, hc, Bool.false_eq_true,
      if_false]
    rw [get_dimension_weight_eq]
    apply mul_nonneg
    · rcases base_weight_cases d with h | h | h <;> rw [h] <;>
        norm_num [Rat.mkRat_eq_div]
    · by_cases hcr : 10 < ScoringAgent.critical_count p
      · rw [if_pos hcr]
        norm_num [Rat.mkRat_eq_div]
      · rw [if_neg hcr]
        norm_num

/-- C5 counterexample: a single failing check whose `overall_null_rate`
metric is the (numeric, hence admissible) value −1 produces dimension
score 200 and composite 200 — outside `[0, 100]` — because nothing clamps
scores from above when an extracted error rate is negative. -/
theorem C5_counterexample :
    (ScoringAgent.compute_scores
      [⟨"c", false, "low", [("overall_null_rate", .num (-1))], some "completeness"⟩]
      profile0 ["completeness"]).composite_dqs = 200 ∧
    ¬ ((200 : ℚ) ≤ 100) := by
  constructor
  · decide
  · norm_num

/-- C5 (amended): whenever every extracted per-check error rate is
nonnegative — which includes rates exceeding 1, handled by the
`max(0, ·)` clamp — every dimension score and the composite lie in
`[0, 100]`. -/
theorem C5_amended_bounds (cr : List CheckResult) (profile : Profile)
    (sel : List String)
    (h : ∀ c ∈ cr, 0 ≤ ScoringAgent.extract_error_rate c) :
    (∀ p ∈ (ScoringAgent.compute_scores cr profile sel).dimension_scores,
      0 ≤ p.2.score ∧ p.2.score ≤ 100) ∧
    0 ≤ (ScoringAgent.compute_scores cr profile sel).composite_dqs ∧
    (ScoringAgent.compute_scores cr profile sel).composite_dqs ≤ 100 := by
  have hds : (ScoringAgent.compute_scores cr profile sel).dimension_scores =
      sel.map (fun d => (d, ScoringAgent.compute_dimension_score d
        (cr.filter (fun c => c.dimension.getD "unknown" == d)) profile)) := rfl
  have hentry : ∀ p ∈ (ScoringAgent.compute_scores cr profile sel).dimension_scores,
      (0 ≤ p.2.score ∧ p.2.score ≤ 100) ∧ 0 ≤ p.2.weight := by
    intro p hp
    rw [hds] at hp
    obtain ⟨d, _, rfl⟩ := List.mem_map.mp hp
    refine ⟨dim_score_bounds d _ profile ?_, dim_weight_nonneg d _ profile⟩
    intro c hcm
    exact h c (List.mem_of_mem_filter hcm)
  refine ⟨fun p hp => (hentry p hp).1, ?_⟩
  -- rewrite the composite into its closed form
  have hw : ∀ p ∈ (ScoringAgent.compute_scores cr profile sel).dimension_scores,
      (((ScoringAgent.compute_scores cr profile sel).dimension_weights.find?
        (fun x => x.1 == p.1)).map Prod.snd).getD 1 = p.2.weight := by
    intro p hp
    rw [hds] at hp
    obtain ⟨d, hdsel, rfl⟩ := List.mem_map.mp hp
    have hdw : (ScoringAgent.compute_scores cr profile sel).dimension_weights =
        sel.map (fun x => (x, (ScoringAgent.compute_dimension_score x
          (cr.filter (fun c => c.dimension.getD "unknown" == x)) profile).weight)) := by
      show ((sel.map (fun d => (d, ScoringAgent.compute_dimension_score d
        (cr.filter (fun c => c.dimension.getD "unknown" == d)) profile))).map
          (fun p => (p.1, p.2.weight))) = _
      rw [List.map_map]
      rfl
    rw [hdw]
    dsimp only
    rw [find_map_key _ _ _ hdsel]
    rfl
  have hcomp : (ScoringAgent.compute_scores cr profile sel).composite_dqs =
      round2 (if 0 < ((ScoringAgent.compute_scores cr profile sel).dimension_scores.map
          (fun p => p.2.weight)).sum then
        ((ScoringAgent.compute_scores cr profile sel).dimension_scores.map
          (fun p => p.2.score * p.2.weight)).sum /
        ((ScoringAgent.compute_scores cr profile sel).dimension_scores.map
          (fun p => p.2.weight)).sum
      else 0) :=
    composite_closed_form _ _ hw
  rw [hcomp]
  set ds := (ScoringAgent.compute_scores cr profile sel).dimension_scores with hdss
  by_cases hpos : 0 < (ds.map (fun p => p.2.weight)).sum
  · rw [if_pos hpos]
    have hS0 : 0 ≤ (ds.map (fun p => p.2.score * p.2.weight)).sum := by
      apply List.sum_nonneg
      intro x hx
      obtain ⟨p, hpm, rfl⟩ := List.mem_map.mp hx
      exact mul_nonneg ((hentry p hpm).1.1) ((hentry p hpm).2)
    have hS100 : (ds.map (fun p => p.2.score * p.2.weight)).sum ≤
        100 * (ds.map (fun p => p.2.weight)).sum := by
      rw [← List.sum_map_mul_left]
      apply List.sum_le_sum
      intro p hpm
      exact mul_le_mul_of_nonneg_right ((hentry p hpm).1.2) ((hentry p hpm).2)
    constructor
    · exact round2_nonneg (div_nonneg hS0 hpos.le)
    · apply round2_le _ round2_hundred
      rw [div_le_iff₀ hpos]
      linarith
  · rw [if_neg hpos, round2_zero]
    norm_num

/-- C5 witness: a passing check with rate 1.5 (above 1) still yields a
dimension score of 0 and composite 0, inside the interval. -/
theorem C5_witness :
    (∀ p ∈ (ScoringAgent.compute_scores
        [⟨"c", true, "low", [("overall_null_rate", .num (mkRat 3 2))],
          some "completeness"⟩] profile0 ["completeness"]).dimension_scores,
      0 ≤ p.2.score ∧ p.2.score ≤ 100) ∧
    0 ≤ (ScoringAgent.compute_scores
        [⟨"c", true, "low", [("overall_null_rate", .num (mkRat 3 2))],
          some "completeness"⟩] profile0 ["completeness"]).composite_dqs ∧
    (ScoringAgent.compute_scores
        [⟨"c", true, "low", [("overall_null_rate", .num (mkRat 3 2))],
          some "completeness"⟩] profile0 ["completeness"]).composite_dqs ≤ 100 :=
  C5_amended_bounds _ profile0 ["completeness"] (by
    intro c hc
    rcases List.mem_singleton.mp hc with rfl
    show (0 : ℚ) ≤ ScoringAgent.extract_error_rate _
    decide)

/-! ## Claim C2: the inapplicable-check policy -/

theorem inapplicable_mk (id msg : String) (extra : List (String × MVal))
    (dim : Option String) :
    isInapplicablePass ⟨id, true, "low", ("message", .str msg) :: extra, dim⟩ :=
  ⟨rfl, rfl, msg, rfl⟩

/-- C2 counterexample: `check_mcc_validity` on a dataset with an MCC
column and a reference table that lacks the expected `mcc` column does
not degrade to the diagnostic pass: it silently falls back to the
format-only mask and fails on a malformed value, violating the uniform
policy for malformed references. -/
theorem C2_counterexample :
    (DataFrame.columns ⟨1, [("code", [.str "5411"])]⟩).contains "mcc" = false ∧
    (check_mcc_validity ⟨1, [("mcc", [.str "ABC"])]⟩
      (some ⟨1, [("code", [.str "5411"])]⟩)).passed = false ∧
    mlookup (check_mcc_validity ⟨1, [("mcc", [.str "ABC"])]⟩
      (some ⟨1, [("code", [.str "5411"])]⟩)).metrics "message" = none := by
  refine ⟨rfl, ?_, rfl⟩
  decide

/-- C2 (amended): every check in the catalog returns the diagnostic pass
(passed, severity low, a `message` metric, no exception raised) when its
required columns are absent, and every reference-consuming check except
MCC validity does so as well when its reference table is missing or lacks
the expected columns; MCC validity instead falls back to the format-only
test (and referential integrity falls back to the reference's first
column when no id-named column exists). -/
theorem C2_amended_policy (df rules ref ledger : DataFrame)
    (mref crules obin oledger : Option DataFrame) (now sla : ℚ) :
    ((df.columns.filter (fun c => strContains (lowerStr c) "currency")).isEmpty = true →
      isInapplicablePass (check_currency_validity df)) ∧
    ((df.columns.filter (fun c => strContains (lowerStr c) "country")).isEmpty = true →
      isInapplicablePass (check_country_validity df)) ∧
    ((df.columns.filter (fun c => strContains (lowerStr c) "mcc")).isEmpty = true →
      isInapplicablePass (check_mcc_validity df mref)) ∧
    ((df.columns.filter (fun c => strContains (lowerStr c) "amount")).isEmpty = true →
      isInapplicablePass (check_amount_validity df)) ∧
    isInapplicablePass (check_duplicates df []) ∧
    (((df.columns.filter (fun c => strContains (lowerStr c) "status")).isEmpty ||
      (df.columns.filter (fun c => strContains (lowerStr c) "settlement" &&
        strContains (lowerStr c) "date")).isEmpty) = true →
      isInapplicablePass (check_status_settlement_consistency df)) ∧
    (((df.columns.filter (fun c => strContains (lowerStr c) "currency")).isEmpty ||
      (df.columns.filter (fun c => strContains (lowerStr c) "amount")).isEmpty) = true →
      isInapplicablePass (check_currency_decimal_consistency df crules)) ∧
    isInapplicablePass (check_currency_decimal_consistency df none) ∧
    ((rules.columns.contains "currency" && rules.columns.contains "decimal_places")
        = false →
      isInapplicablePass (check_currency_decimal_consistency df (some rules))) ∧
    (((df.columns.filter (fun c => strContains (lowerStr c) "event" &&
        strContains (lowerStr c) "time")).isEmpty ||
      (df.columns.filter (fun c => strContains (lowerStr c) "settlement" &&
        (strContains (lowerStr c) "time" || strContains (lowerStr c) "date"))).isEmpty)
        = true →
      isInapplicablePass (check_time_ordering_consistency df) ∧
      isInapplicablePass (check_processing_delay df)) ∧
    ((df.columns.filter (fun c => ["event_time", "created_at", "timestamp"].any
        (fun k => strContains (lowerStr c) k))).isEmpty = true →
      isInapplicablePass (check_event_lag df now sla)) ∧
    (∀ r ∈ run_integrity_checks df none none, isInapplicablePass r) ∧
    isInapplicablePass (check_bin_reconciliation df none) ∧
    ((df.columns.filter (fun c => ["card", "pan", "bin"].any
        (fun k => strContains (lowerStr c) k))).isEmpty = true →
      isInapplicablePass (check_bin_reconciliation df obin)) ∧
    (ref.columns.contains "bin" = false →
      isInapplicablePass (check_bin_reconciliation df (some ref))) ∧
    isInapplicablePass (check_settlement_reconciliation df none) ∧
    ((df.columns.filter (fun c => ["txn_id", "transaction_id", "id"].any
        (fun k => strContains (lowerStr c) k))).isEmpty = true →
      isInapplicablePass (check_settlement_reconciliation df oledger)) ∧
    ((ledger.columns.filter (fun c => ["txn_id", "transaction_id", "id"].any
        (fun k => strContains (lowerStr c) k))).isEmpty = true →
      isInapplicablePass (check_settlement_reconciliation df (some ledger))) := by
  refine ⟨?_, ?_, ?_, ?_, ?_, ?_, ?_, ?_, ?_, ?_, ?_, ?_, ?_, ?_, ?_, ?_, ?_, ?_⟩
  · intro h
    have e : check_currency_validity df =
        ⟨"validity_currency", true, "low",
         [("message", .str "No currency columns found")], none⟩ := by
      simp [check_currency_validity, h]
    rw [e]; exact inapplicable_mk _ _ _ _
  · intro h
    have e : check_country_validity df =
        ⟨"validity_country", true, "low",
         [("message", .str "No country columns found")], none⟩ := by
      simp [check_country_validity, h]
    rw [e]; exact inapplicable_mk _ _ _ _
  · intro h
    have e : check_mcc_validity df mref =
        ⟨"validity_mcc", true, "low",
         [("message", .str "No MCC columns found")], none⟩ := by
      simp [check_mcc_validity, h]
    rw [e]; exact inapplicable_mk _ _ _ _
  · intro h
    have e : check_amount_validity df =
        ⟨"validity_amount", true, "low",
         [("message", .str "No amount columns found")], none⟩ := by
      simp [check_amount_validity, h]
    rw [e]; exact inapplicable_mk _ _ _ _
  · exact inapplicable_mk _ _ _ _
  · intro h
    have e : check_status_settlement_consistency df =
        ⟨"consistency_status_settlement", true, "low",
         [("message", .str "Required columns not found")], none⟩ := by
      simp only [check_status_settlement_consistency, h, if_true]
    rw [e]; exact inapplicable_mk _ _ _ _
  · intro h
    have e : check_currency_decimal_consistency df crules =
        ⟨"consistency_currency_decimals", true, "low",
         [("message", .str "Required columns or reference not found")], none⟩ := by
      simp only [check_currency_decimal_consistency, h, Bool.true_or, if_true]
    rw [e]; exact inapplicable_mk _ _ _ _
  · have e : check_currency_decimal_consistency df none =
        ⟨"consistency_currency_decimals", true, "low",
         [("message", .str "Required columns or reference not found")], none⟩ := by
      simp [check_currency_decimal_consistency]
    rw [e]; exact inapplicable_mk _ _ _ _
  · intro h
    by_cases h0 : ((df.columns.filter (fun c => strContains (lowerStr c) "currency")).isEmpty ||
        (df.columns.filter (fun c => strContains (lowerStr c) "amount")).isEmpty ||
        (some rules).isNone) = true
    · have e : check_currency_decimal_consistency df (some rules) =
          ⟨"consistency_currency_decimals", true, "low",
           [("message", .str "Required columns or reference not found")], none⟩ := by
        simp only [check_currency_decimal_consistency, h0, if_true]
      rw [e]; exact inapplicable_mk _ _ _ _
    · have e : check_currency_decimal_consistency df (some rules) =
          ⟨"consistency_currency_decimals", true, "low",
           [("message", .str "Currency rules format invalid")], none⟩ := by
        simp only [check_currency_decimal_consistency, h0, Bool.false_eq_true,
          if_false, Option.getD_some, h, Bool.not_false, if_true]
      rw [e]; exact inapplicable_mk _ _ _ _
  · intro h
    constructor
    · have e : check_time_ordering_consistency df =
          ⟨"consistency_time_ordering", true, "low",
           [("message", .str "Required time columns not found")], none⟩ := by
        simp only [check_time_ordering_consistency, h, if_true]
      rw [e]; exact inapplicable_mk _ _ _ _
    · have e : check_processing_delay df =
          ⟨"timeliness_processing_delay", true, "low",
           [("message", .str "Required time columns not found")], none⟩ := by
        simp only [check_processing_delay, h, if_true]
      rw [e]; exact inapplicable_mk _ _ _ _
  · intro h
    have e : check_event_lag df now sla =
        ⟨"timeliness_event_lag", true, "low",
         [("message", .str "No timestamp columns found")], none⟩ := by
      simp only [check_event_lag, h, if_true]
    rw [e]; exact inapplicable_mk _ _ _ _
  · intro r hr
    have e : run_integrity_checks df none none =
        [⟨"integrity_referential", true, "low",
          [("message", .str "No reference data provided for integrity checks")],
          none⟩] := rfl
    rw [e] at hr
    rcases List.mem_singleton.mp hr with rfl
    exact inapplicable_mk _ _ _ _
  · exact inapplicable_mk _ _ _ _
  · intro h
    cases obin with
    | none => exact inapplicable_mk _ _ _ _
    | some b =>
      have e : check_bin_reconciliation df (some b) =
          ⟨"reconciliation_bin", true, "low",
           [("message", .str "No card/BIN columns found")], none⟩ := by
        simp only [check_bin_reconciliation, h, if_true]
      rw [e]; exact inapplicable_mk _ _ _ _
  · intro h
    by_cases h0 : (df.columns.filter (fun c => ["card", "pan", "bin"].any
        (fun k => strContains (lowerStr c) k))).isEmpty
    · have e : check_bin_reconciliation df (some ref) =
          ⟨"reconciliation_bin", true, "low",
           [("message", .str "No card/BIN columns found")], none⟩ := by
        simp only [check_bin_reconciliation, h0, if_true]
      rw [e]; exact inapplicable_mk _ _ _ _
    · have h0f : (df.columns.filter (fun c => ["card", "pan", "bin"].any
          (fun k => strContains (lowerStr c) k))).isEmpty = false := by
        simpa using h0
      have e : check_bin_reconciliation df (some ref) =
          ⟨"reconciliation_bin", true, "low",
           [("message", .str "BIN reference format invalid")], none⟩ := by
        simp only [check_bin_reconciliation, h0f, Bool.false_eq_true, if_false, h,
          Bool.not_false, if_true]
      rw [e]; exact inapplicable_mk _ _ _ _
  · exact inapplicable_mk _ _ _ _
  · intro h
    cases oledger with
    | none => exact inapplicable_mk _ _ _ _
    | some l =>
      have e : check_settlement_reconciliation df (some l) =
          ⟨"reconciliation_settlement", true, "low",
           [("message", .str "No transaction ID column found")], none⟩ := by
        simp only [check_settlement_reconciliation, h, if_true]
      rw [e]; exact inapplicable_mk _ _ _ _
  · intro h
    by_cases h0 : (df.columns.filter (fun c => ["txn_id", "transaction_id", "id"].any
        (fun k => strContains (lowerStr c) k))).isEmpty
    · have e : check_settlement_reconciliation df (some ledger) =
          ⟨"reconciliation_settlement", true, "low",
           [("message", .str "No transaction ID column found")], none⟩ := by
        simp only [check_settlement_reconciliation, h0, if_true]
      rw [e]; exact inapplicable_mk _ _ _ _
    · have h0f : (df.columns.filter (fun c => ["txn_id", "transaction_id", "id"].any
          (fun k => strContains (lowerStr c) k))).isEmpty = false := by
        simpa using h0
      have e : check_settlement_reconciliation df (some ledger) =
          ⟨"reconciliation_settlement", true, "low",
           [("message", .str "Settlement ledger format invalid")], none⟩ := by
        simp only [check_settlement_reconciliation, h0f, Bool.false_eq_true, if_false,
          h, if_true]
      rw [e]; exact inapplicable_mk _ _ _ _

/-- C2 witness: on a dataset with a single `note` column, the currency
check and the empty-key duplicates check both return the diagnostic
pass. -/
theorem C2_witness :
    isInapplicablePass (check_currency_validity ⟨2, [("note", [.null, .null])]⟩) ∧
    isInapplicablePass (check_duplicates ⟨2, [("note", [.null, .null])]⟩ []) := by
  have h := C2_amended_policy ⟨2, [("note", [.null, .null])]⟩ ⟨0, []⟩ ⟨0, []⟩ ⟨0, []⟩
    none none none none 0 24
  exact ⟨h.1 (by decide), h.2.2.2.2.1⟩
